import Mathlib

/-! configuration-exporter: the collection-and-classification pipeline

A shallow embedding of `controller/get_devices.go` and
`controller/controller_error.go`.

* Go values of type `any` are the inductive `Value`; a `map[string]any` is an
  association list read with `List.lookup` (a Go map has one value per key).
* A Go slice that may be `nil` is `Option (List α)`: `none` is the nil slice.
* A Go pointer `*int` is `Option Int`: `none` is the nil pointer.
* A Go `error` result is `Option GoError`: `none` is the nil error.
* Calls to the logger are collected, in call order, as a list of `LogLine`.
* A call that can dereference a nil pointer returns an `Outcome`: it either
  returns or panics.
* Everything outside the package (file system, YAML and JSON codecs, the URL
  parser, the HTTP client) is a field of `World`.
-/

namespace controller

/-! ## Data model -/

/-- A Go value held in an `any`. The first six constructors are what
`encoding/json` decodes into; `other` stands for a value of any other dynamic
type (an `int`, a channel, ...), named by its Go type. -/
inductive Value where
  | null
  | bool (b : Bool)
  | number (n : Int)
  | string (s : String)
  | array (items : List Value)
  | object (fields : List (String × Value))
  | other (goType : String)

/-- The Go type `map[string]any`. -/
abbrev GoMap := List (String × Value)

/-- Severity of a logger call. -/
inductive Level where
  | info
  | warn
  | error
deriving DecidableEq, Repr

/-- One call to the logger: `log.Info(m)`, `log.Warn(m)` or `log.Error(m)`. -/
structure LogLine where
  level : Level
  message : String
deriving DecidableEq, Repr

/-- Error object for Exporter (`type ExpError struct`). -/
structure ExpError where
  StatusCode : Int
  Code : String
  Message : String
deriving DecidableEq, Repr

/-- A non-nil value of the Go interface `error`: either a `*ExpError` or an
error of some other dynamic type. -/
inductive GoError where
  | expError (e : ExpError)
  | foreign (text : String)
deriving DecidableEq, Repr

/-- The `gin.H` map built by `ToJson`, or the nil map. -/
abbrev GinH := Option GoMap

def defaultTimeout : Int := 600
def maxTimeout : Int := 36000
def minTimeout : Int := 1
def yamlFilePath : String := "configs/exporter.yaml"

def incompleteDeviceList : String := "incompleteDeviceList"
def abnormalStatusDeviceList : String := "abnormalStatusDeviceList"

/-- The constant `http.StatusInternalServerError`. -/
def StatusInternalServerError : Int := 500

/-- The constant `http.StatusOK`. -/
def StatusOK : Int := 200

structure yamlCollectConfig where
  TargetUrl : String
  TimeOut : Option Int

structure yamlStateSetting where
  NormalState : Option (List String)
  NormalHealth : Option (List String)

structure yamlAlertConfig where
  TargetUrl : String
  TimeOut : Option Int
  StateSettings : yamlStateSetting

structure yamlContent where
  CollectConfigs : yamlCollectConfig
  AlertConfigs : yamlAlertConfig

/-- The zero value `yamlContent{}`. -/
def yamlContent.zero : yamlContent :=
  { CollectConfigs := { TargetUrl := "", TimeOut := none },
    AlertConfigs := { TargetUrl := "", TimeOut := none,
                      StateSettings := { NormalState := none, NormalHealth := none } } }

structure Output where
  Devices : Option (List GoMap)
  IncompleteDevices : Option (List Value)
  TimeStanp : String

/-- The zero value `Output{}`. -/
def Output.zero : Output :=
  { Devices := none, IncompleteDevices := none, TimeStanp := "" }

structure alertLabels where
  Alertname : String
  Instance : String
  Job : String
  Severity : String
deriving DecidableEq, Repr

structure alertAnnotations where
  Description : String
deriving DecidableEq, Repr

structure alertContent where
  Status : String
  Labels : alertLabels
  Annotations : alertAnnotations
deriving DecidableEq, Repr

abbrev alertContentList := List alertContent

/-- The elements a `for _, x := range s` loop visits: none for the nil slice. -/
def rangeOf {α : Type} : Option (List α) → List α
  | none => []
  | some xs => xs

/-- The library function `slices.Contains`. -/
def slicesContains (s : Option (List String)) (v : String) : Bool :=
  (rangeOf s).contains v

/-! ## controller_error.go -/

/-- Create a new ExpError. -/
def ExpErrorNew (statusCode : Int) (code : String) (message : String) : GoError :=
  GoError.expError { StatusCode := statusCode, Code := code, Message := message }

/-- Return the StatusCode value from ExpError. -/
def GetStatusCode (err : GoError) : Int :=
  match err with
  | GoError.expError castErr => castErr.StatusCode
  | _ => 0

/-- Convert Code and Message of ExpError to gin.H (map format) and return. -/
def ToJson (err : GoError) : GinH :=
  match err with
  | GoError.expError castErr =>
    some [("code", Value.string castErr.Code), ("message", Value.string castErr.Message)]
  | _ => none

/-! ## Status classification -/

/-- Return true if the value of the resource's state or health element is
normal, false if abnormal. -/
def isResourceStatusOne (key : String) (statusMap : GoMap)
    (normalStatusList : Option (List String)) : Bool × List LogLine :=
  match statusMap.lookup key with
  | some (Value.string status) => (slicesContains normalStatusList status, [])
  | _ =>
    (false,
      [{ level := Level.warn,
         message := "status." ++ key ++ " does not exist or the value is not a String." }])

/-- Return true if the resource status is normal, false if abnormal. -/
def isResourceStatus (resource : GoMap) (stateSetting : yamlStateSetting) :
    Bool × List LogLine :=
  match resource.lookup "status" with
  | some (Value.object status) =>
    let r1 := isResourceStatusOne "state" status stateSetting.NormalState
    if !r1.1 then (false, r1.2)
    else
      let r2 := isResourceStatusOne "health" status stateSetting.NormalHealth
      if !r2.1 then (false, r1.2 ++ r2.2)
      else (true, r1.2 ++ r2.2)
  | _ =>
    (false,
      [{ level := Level.warn,
         message := "status does not exist or the value is not a Map." }])

/-- The loop variables of the classify-and-partition loop of `GetDevices`. -/
structure Partition where
  resources : List Value
  abnormalResources : List Value
  log : List LogLine

/-- One iteration of `for _, device := range output.Devices` in `GetDevices`. -/
def partitionStep (stateSetting : yamlStateSetting) (acc : Partition) (device : GoMap) :
    Partition :=
  let resources := acc.resources ++ [Value.object device]
  let r := isResourceStatus device stateSetting
  if !r.1 then
    { resources := resources,
      abnormalResources := acc.abnormalResources ++ [Value.object device],
      log := acc.log ++ r.2 }
  else
    { resources := resources, abnormalResources := acc.abnormalResources,
      log := acc.log ++ r.2 }

/-- The classify-and-partition loop of `GetDevices` (lines 140-147): both
lists start empty and the devices are visited in order. -/
def partitionDevices (devices : Option (List GoMap)) (stateSetting : yamlStateSetting) :
    Partition :=
  (rangeOf devices).foldl (partitionStep stateSetting)
    { resources := [], abnormalResources := [], log := [] }

/-! ## The world outside the package -/

/-- What `httpClient.Get` gives back: a transport error, or a response with
its status code and the result of `io.ReadAll(resp.Body)` (`none` when the
read fails). -/
inductive GetResult where
  | failed (err : String)
  | response (StatusCode : Int) (body : Option String)

/-- What `httpClient.Post` gives back: a transport error, or a response with
its status code. -/
inductive PostResult where
  | failed (err : String)
  | response (StatusCode : Int)

/-- The collaborators of the package. Timeouts are passed in seconds.

* `readFile` is `os.ReadFile` (`none` on error);
* `yamlUnmarshal buf settings` is `yaml.Unmarshal(buf, &settings)`, which is
  handed the address of the pointer `settings`: what the pointer points to
  afterwards (`none` when the call set the pointer to nil, as `yaml.v2` does
  for a null document) and the error text, if any;
* `parseRequestURI u` tells whether `url.ParseRequestURI(u)` returns no error;
* `httpGet url timeout` is `httpClient.Get(url)` followed by `io.ReadAll`;
* `jsonUnmarshal body output` is `json.Unmarshal(body, &output)`: the decoded
  output, or the error text;
* `jsonMarshalAlerts` and `jsonMarshalBody` are `json.Marshal` at its two call
  sites: the JSON text or the error text;
* `goSyntaxAlerts` and `goSyntaxBody` are `fmt.Sprintf("%#v", _)`;
* `httpPost url timeout contentType body` is `httpClient.Post`. -/
structure World where
  readFile : String → Option String
  yamlUnmarshal : String → yamlContent → Option yamlContent × Option String
  parseRequestURI : String → Bool
  httpGet : String → Int → GetResult
  jsonUnmarshal : String → Output → Except String Output
  jsonMarshalAlerts : Option (List Value) → Except String String
  jsonMarshalBody : alertContentList → Except String String
  goSyntaxAlerts : Option (List Value) → String
  goSyntaxBody : alertContentList → String
  httpPost : String → Int → String → String → PostResult

/-- A Go call either returns or panics (here: on a nil pointer dereference). -/
inductive Outcome (α : Type) where
  | returned (a : α)
  | panicked (reason : String)

def nilDereference : String :=
  "runtime error: invalid memory address or nil pointer dereference"

/-! ## Configuration loading -/

/-- Implementation of the Error method in the error interface. -/
def GoError.Error (err : GoError) : String :=
  match err with
  | GoError.expError gce =>
    "http status code = " ++ toString gce.StatusCode ++ ", code = " ++ gce.Code
      ++ " message = " ++ gce.Message
  | GoError.foreign text => text

/-- Check for required and format of URL. -/
def validConfigUrl (w : World) (targetName : String) (targetValue : String) :
    Option GoError :=
  if targetValue = "" then
    some (ExpErrorNew StatusInternalServerError "0010" (targetName ++ " setting is required."))
  else if !w.parseRequestURI targetValue then
    some (ExpErrorNew StatusInternalServerError "0011"
      (targetName ++ " Format of the url is invalid."))
  else none

/-- Check the range of Timeout. The result is the returned pointer, the
returned error and the logger calls made. -/
def validConfigTime (targetName : String) (targetValue : Option Int) :
    Option Int × Option GoError × List LogLine :=
  match targetValue with
  | none =>
    (some defaultTimeout, none,
      [{ level := Level.warn,
         message := targetName ++
           " was not specified in the yaml configuration file. The default value has been set." }])
  | some t =>
    if t < minTimeout ∨ t > maxTimeout then
      (none, some (ExpErrorNew StatusInternalServerError "0012"
        (targetName ++ " value is out of range.")), [])
    else (some t, none, [])

/-- Check for nil or empty slice. -/
def validConfigSliceRequired (targetName : String) (targetValue : Option (List String)) :
    Option GoError :=
  match targetValue with
  | none =>
    some (ExpErrorNew StatusInternalServerError "0013" (targetName ++ " value is nil."))
  | some xs =>
    if xs.length = 0 then
      some (ExpErrorNew StatusInternalServerError "0014" (targetName ++ " value is blank."))
    else none

/-- Lines 173-209 of `loadConfig`: the six checks, made through the non-nil
pointer `settings`. The result is the settings as the checks leave them, the
returned error and the logger calls made. -/
def loadConfig.validate (w : World) (settings : yamlContent) :
    yamlContent × Option GoError × List LogLine :=
  match validConfigUrl w "collect_configs/target_url" settings.CollectConfigs.TargetUrl with
  | some err => (settings, some err, [])
  | none =>
  match validConfigUrl w "alert_config/target_url" settings.AlertConfigs.TargetUrl with
  | some err => (settings, some err, [])
  | none =>
  let t1 := validConfigTime "collect_configs/timeout" settings.CollectConfigs.TimeOut
  let settings := { settings with
    CollectConfigs := { settings.CollectConfigs with TimeOut := t1.1 } }
  match t1.2.1 with
  | some err => (settings, some err, t1.2.2)
  | none =>
  let t2 := validConfigTime "alert_config/timeout" settings.AlertConfigs.TimeOut
  let settings := { settings with
    AlertConfigs := { settings.AlertConfigs with TimeOut := t2.1 } }
  match t2.2.1 with
  | some err => (settings, some err, t1.2.2 ++ t2.2.2)
  | none =>
  match validConfigSliceRequired "alert_config/state_settings/normal_state"
      settings.AlertConfigs.StateSettings.NormalState with
  | some err => (settings, some err, t1.2.2 ++ t2.2.2)
  | none =>
  match validConfigSliceRequired "alert_config/state_settings/normal_health"
      settings.AlertConfigs.StateSettings.NormalHealth with
  | some err => (settings, some err, t1.2.2 ++ t2.2.2)
  | none => (settings, none, t1.2.2 ++ t2.2.2)

/-- Load settings from yaml file and store in struct. When it returns, the
result is the caller's settings as `loadConfig` leaves them, the returned
error and the logger calls made. Line 168 hands `yaml.Unmarshal` the address
of the pointer `settings`; when the call returns no error but has set the
pointer to nil, the dereference of line 174 panics. -/
def loadConfig (w : World) (filepath : String) (settings : yamlContent) :
    Outcome (yamlContent × Option GoError × List LogLine) :=
  match w.readFile filepath with
  | none =>
    Outcome.returned
      (settings, some (ExpErrorNew StatusInternalServerError "0001" "Failed to read file."), [])
  | some buf =>
  match w.yamlUnmarshal buf settings with
  | (pointer, some _) =>
    Outcome.returned
      (pointer.getD settings,
        some (ExpErrorNew StatusInternalServerError "0002" "Failed to unmarshal yaml."), [])
  | (none, none) => Outcome.panicked nilDereference
  | (some settings, none) => Outcome.returned (loadConfig.validate w settings)

/-! ## Fetching the inventory -/

/-- Request bulk information retrieval of all resources for HW control. The
result is the output behind the pointer and the returned error. -/
def requestDevices (w : World) (settings : yamlContent) (output : Output) :
    Outcome (Output × Option GoError) :=
  match settings.CollectConfigs.TimeOut with
  | none => Outcome.panicked nilDereference
  | some timeout =>
  match w.httpGet settings.CollectConfigs.TargetUrl timeout with
  | GetResult.failed _ =>
    Outcome.returned
      (output, some (ExpErrorNew StatusInternalServerError "0006" "Get request failure."))
  | GetResult.response statusCode body =>
  if statusCode ≠ StatusOK then
    Outcome.returned
      (output, some (ExpErrorNew StatusInternalServerError "0007" "Collect target failure."))
  else
  match body with
  | none =>
    Outcome.returned
      (output, some (ExpErrorNew StatusInternalServerError "0008" "Failed to read response."))
  | some body =>
  match w.jsonUnmarshal body output with
  | Except.error _ =>
    Outcome.returned
      (output,
        some (ExpErrorNew StatusInternalServerError "0009" "Failed to unmarshal response."))
  | Except.ok output => Outcome.returned (output, none)

/-! ## Alert dispatch -/

/-- Create a new alertContentList. -/
def NewAlertContentList (alertName severity description : String) : alertContentList :=
  [{ Status := "firing",
     Labels := { Alertname := alertName,
                 Instance := "configuration-exporter",
                 Job := "configuration-exporter",
                 Severity := severity },
     Annotations := { Description := description } }]

/-- The request handed to `httpClient.Post`. -/
structure PostRequest where
  url : String
  timeout : Int
  contentType : String
  body : String
deriving DecidableEq, Repr

/-- What one run of `postAlert` did: the logger calls, the envelope built at
line 327 (if that line was reached) and the POST issued (if any). -/
structure PostAlertRun where
  log : List LogLine
  alertBody : Option alertContentList
  posted : Option PostRequest

/-- POST an alert to the alert notification destination. The extra `false`
argument of some `log.Error` calls is not recorded. -/
def postAlert (w : World) (alertName : String) (alerts : Option (List Value))
    (settings : yamlContent) : Outcome PostAlertRun :=
  let log0 : List LogLine := [{ level := Level.info, message := "Starting the post." }]
  match w.jsonMarshalAlerts alerts with
  | Except.error err =>
    Outcome.returned
      { log := log0 ++
          [{ level := Level.error, message := "Failed to marshal for 'annotations'." },
           { level := Level.error, message := "Unmarshalable: " ++ w.goSyntaxAlerts alerts },
           { level := Level.error, message := err }],
        alertBody := none, posted := none }
  | Except.ok annotationsJson =>
  let alertBody := NewAlertContentList alertName "critical" annotationsJson
  match w.jsonMarshalBody alertBody with
  | Except.error err =>
    Outcome.returned
      { log := log0 ++
          [{ level := Level.error, message := "Failed to marshal." },
           { level := Level.error, message := "Unmarshalable: " ++ w.goSyntaxBody alertBody },
           { level := Level.error, message := err }],
        alertBody := some alertBody, posted := none }
  | Except.ok alertJsonBody =>
  match settings.AlertConfigs.TimeOut with
  | none => Outcome.panicked nilDereference
  | some timeout =>
  let request : PostRequest :=
    { url := settings.AlertConfigs.TargetUrl, timeout := timeout,
      contentType := "application/json", body := alertJsonBody }
  match w.httpPost request.url request.timeout request.contentType request.body with
  | PostResult.failed err =>
    Outcome.returned
      { log := log0 ++
          [{ level := Level.error, message := "post has failed." },
           { level := Level.error, message := alertJsonBody },
           { level := Level.error, message := err }],
        alertBody := some alertBody, posted := some request }
  | PostResult.response _ =>
    Outcome.returned
      { log := log0 ++
          [{ level := Level.info, message := "post has been completed." },
           { level := Level.info, message := alertJsonBody }],
        alertBody := some alertBody, posted := some request }

/-! ## The handler -/

/-- One `go postAlert(alertName, alerts, &settings)` statement: the goroutine
is launched and never waited for. -/
structure Dispatch where
  alertName : String
  alerts : Option (List Value)
  settings : yamlContent

/-- The second argument of `c.JSON`: the resource list or the `gin.H` of an
error. -/
inductive Body where
  | resources (items : List Value)
  | h (fields : GinH)

/-- What one run of `GetDevices` did: the `c.JSON(status, body)` call, the
goroutines launched (in launch order) and the logger calls. -/
structure Handled where
  status : Int
  body : Body
  dispatches : List Dispatch
  log : List LogLine

/-- Execute bulk information retrieval of all HW control resources and edit
the obtained data into the format of HW information synchronization input for
configuration information management. `path` and `method` are
`c.Request.URL.Path` and `c.Request.Method`. -/
def GetDevices (w : World) (path method : String) : Outcome Handled :=
  let log0 : List LogLine :=
    [{ level := Level.info, message := path ++ "[" ++ method ++ "] start." }]
  match loadConfig w yamlFilePath yamlContent.zero with
  | Outcome.panicked reason => Outcome.panicked reason
  | Outcome.returned (_, some err, loadLog) =>
    Outcome.returned
      { status := GetStatusCode err, body := Body.h (ToJson err), dispatches := [],
        log := log0 ++ loadLog ++ [{ level := Level.error, message := err.Error }] }
  | Outcome.returned (settings, none, loadLog) =>
  let log1 := log0 ++ loadLog
  match requestDevices w settings Output.zero with
  | Outcome.panicked reason => Outcome.panicked reason
  | Outcome.returned (_, some err) =>
    Outcome.returned
      { status := GetStatusCode err, body := Body.h (ToJson err), dispatches := [],
        log := log1 ++ [{ level := Level.error, message := err.Error }] }
  | Outcome.returned (output, none) =>
  let incomplete : List Dispatch × List LogLine :=
    match output.IncompleteDevices with
    | some _ =>
      ([{ alertName := incompleteDeviceList, alerts := output.IncompleteDevices,
          settings := settings }],
       [{ level := Level.warn,
          message := incompleteDeviceList ++ " existed. Send an alert notification." }])
    | none =>
      ([],
       [{ level := Level.info,
          message := incompleteDeviceList ++ " not existed. Not send an alert notification." }])
  let parts := partitionDevices output.Devices settings.AlertConfigs.StateSettings
  let abnormal : List Dispatch × List LogLine :=
    if parts.abnormalResources.length > 0 then
      ([{ alertName := abnormalStatusDeviceList, alerts := some parts.abnormalResources,
          settings := settings }],
       [{ level := Level.warn,
          message := abnormalStatusDeviceList ++ " existed. Send an alert notification." }])
    else
      ([],
       [{ level := Level.info,
          message :=
            abnormalStatusDeviceList ++ " not existed. Not send an alert notification." }])
  Outcome.returned
    { status := StatusOK, body := Body.resources parts.resources,
      dispatches := incomplete.1 ++ abnormal.1,
      log := log1 ++ incomplete.2 ++ parts.log ++ abnormal.2 ++
        [{ level := Level.info,
           message := path ++ "[" ++ method ++ "] completed successfully." }] }

/-! ## A model of the URL parser

`url.ParseRequestURI` belongs to the Go standard library (`net/url`), not to
the repository. The definitions below follow `parse(rawURL, viaRequest = true)`
of Go 1.22 and keep only whether it returns an error. Strings are read
character by character; every test below concerns ASCII characters only, and
each byte of a multi-byte character is at least `0x80`, so this agrees with
Go reading bytes. They are used to instantiate `World.parseRequestURI` at
concrete inputs. -/

namespace neturl

/-- The escaping modes of `net/url` that parsing a request URI reaches. -/
inductive encoding where
  | encodePath
  | encodeHost
  | encodeZone
  | encodeUserPassword
deriving DecidableEq, Repr

def stringContainsCTLByte (s : List Char) : Bool :=
  s.any (fun b => b.toNat < 0x20 || b.toNat == 0x7f)

def isLetter (c : Char) : Bool :=
  (decide ('a' ≤ c) && decide (c ≤ 'z')) || (decide ('A' ≤ c) && decide (c ≤ 'Z'))

def isDigit (c : Char) : Bool :=
  decide ('0' ≤ c) && decide (c ≤ '9')

/-- The loop of `getScheme` at position `i`, with `cs` the text from `i` on.
`none` is the error "missing protocol scheme"; otherwise the scheme and the
rest. -/
def getSchemeFrom (rawURL : List Char) : Nat → List Char → Option (List Char × List Char)
  | _, [] => some ([], rawURL)
  | i, c :: cs =>
    if isLetter c then getSchemeFrom rawURL (i + 1) cs
    else if isDigit c || c == '+' || c == '-' || c == '.' then
      if i = 0 then some ([], rawURL) else getSchemeFrom rawURL (i + 1) cs
    else if c == ':' then
      if i = 0 then none else some (rawURL.take i, cs)
    else some ([], rawURL)

def getScheme (rawURL : List Char) : Option (List Char × List Char) :=
  getSchemeFrom rawURL 0 rawURL

/-- The path part of `rest` once the query is split off. -/
def cutQuery (rest : List Char) : List Char :=
  if rest.getLast? = some '?' ∧ rest.count '?' = 1 then rest.dropLast
  else rest.takeWhile (fun c => c != '?')

def ishex (c : Char) : Bool :=
  isDigit c || (decide ('a' ≤ c) && decide (c ≤ 'f')) || (decide ('A' ≤ c) && decide (c ≤ 'F'))

def unhex (c : Char) : Nat :=
  if isDigit c then c.toNat - '0'.toNat
  else if decide ('a' ≤ c) && decide (c ≤ 'f') then c.toNat - 'a'.toNat + 10
  else if decide ('A' ≤ c) && decide (c ≤ 'F') then c.toNat - 'A'.toNat + 10
  else 0

/-- The function `shouldEscape(c, encodeHost)`. Characters 39 and 34 are the
single and the double quote. -/
def shouldEscapeHost (c : Char) : Bool :=
  if isLetter c || isDigit c then false
  else if "!$&()*+,;=:[]<>".toList.contains c || c.toNat == 39 || c.toNat == 34 then false
  else if "-_.~".toList.contains c then false
  else true

/-- Whether `unescape(s, mode)` returns no error. -/
def unescapeOk (mode : encoding) : List Char → Bool
  | [] => true
  | c :: rest =>
    if c == '%' then
      match rest with
      | h1 :: h2 :: tail =>
        if !(ishex h1 && ishex h2) then false
        else if mode = encoding.encodeHost ∧ unhex h1 < 8 ∧ ¬ (h1 = '2' ∧ h2 = '5') then false
        else if mode = encoding.encodeZone ∧ ¬ (h1 = '2' ∧ h2 = '5')
            ∧ unhex h1 * 16 + unhex h2 ≠ 32
            ∧ shouldEscapeHost (Char.ofNat (unhex h1 * 16 + unhex h2)) = true then false
        else unescapeOk mode tail
      | _ => false
    else if (mode = encoding.encodeHost ∨ mode = encoding.encodeZone) ∧ c.toNat < 0x80
        ∧ shouldEscapeHost c = true then false
    else unescapeOk mode rest

def validOptionalPort (port : List Char) : Bool :=
  match port with
  | [] => true
  | c :: digits => c == ':' && digits.all isDigit

def validUserinfo (s : List Char) : Bool :=
  s.all (fun r =>
    isLetter r || isDigit r || "-._:~!$&()*+,;=%@".toList.contains r || r.toNat == 39)

/-- Index of the last occurrence of `c` (`strings.LastIndex` with a
one-character needle). -/
def lastIndex (c : Char) (s : List Char) : Option Nat :=
  match s.reverse.indexOf? c with
  | none => none
  | some k => some (s.length - 1 - k)

/-- Index of the first occurrence of `%25` (`strings.Index(s, "%25")`). -/
def indexZone : List Char → Option Nat
  | [] => none
  | c :: cs =>
    if (c :: cs).take 3 = ['%', '2', '5'] then some 0
    else (indexZone cs).map (fun k => k + 1)

/-- Whether `parseHost(host)` returns no error. -/
def parseHostOk (host : List Char) : Bool :=
  if host.head? = some '[' then
    match lastIndex ']' host with
    | none => false
    | some i =>
      if !validOptionalPort (host.drop (i + 1)) then false
      else
        match indexZone (host.take i) with
        | some zone =>
          unescapeOk encoding.encodeHost (host.take zone)
            && unescapeOk encoding.encodeZone ((host.take i).drop zone)
            && unescapeOk encoding.encodeHost (host.drop i)
        | none => unescapeOk encoding.encodeHost host
  else
    match lastIndex ':' host with
    | some i =>
      if !validOptionalPort (host.drop i) then false
      else unescapeOk encoding.encodeHost host
    | none => unescapeOk encoding.encodeHost host

/-- Whether `parseAuthority(authority)` returns no error. -/
def parseAuthorityOk (authority : List Char) : Bool :=
  match lastIndex '@' authority with
  | none => parseHostOk authority
  | some i =>
    if !parseHostOk (authority.drop (i + 1)) then false
    else
      let userinfo := authority.take i
      if !validUserinfo userinfo then false
      else if !userinfo.contains ':' then
        unescapeOk encoding.encodeUserPassword userinfo
      else
        unescapeOk encoding.encodeUserPassword (userinfo.takeWhile (fun c => c != ':'))
          && unescapeOk encoding.encodeUserPassword
              ((userinfo.dropWhile (fun c => c != ':')).drop 1)

/-- Whether `url.ParseRequestURI(rawURL)` returns no error. -/
def ParseRequestURI (rawURL : String) : Bool :=
  let raw := rawURL.toList
  if stringContainsCTLByte raw then false
  else if raw.isEmpty then false
  else if raw = ['*'] then true
  else
    match getScheme raw with
    | none => false
    | some (scheme, rest) =>
      let rest := cutQuery rest
      if rest.head? ≠ some '/' then
        !scheme.isEmpty
      else if !scheme.isEmpty ∧ (rest.drop 1).head? = some '/' then
        let authority := rest.drop 2
        parseAuthorityOk (authority.takeWhile (fun c => c != '/'))
          && unescapeOk encoding.encodePath (authority.dropWhile (fun c => c != '/'))
      else unescapeOk encoding.encodePath rest

/-- The scheme `getScheme` splits off `rawURL`, empty when there is none. -/
def schemeOf (rawURL : String) : String :=
  match getScheme rawURL.toList with
  | some (scheme, _) => String.mk scheme
  | none => ""

end neturl

/-! ## Worlds for concrete runs -/

/-- A world in which the configuration file decodes to `cfg`, the collector
answers `got`, its body decodes to `decoded`, URLs are parsed by the model of
`net/url`, and the alert endpoint answers `posted`. -/
def stubWorld (cfg : yamlContent) (got : GetResult) (decoded : Except String Output)
    (posted : PostResult) : World :=
  { readFile := fun _ => some "",
    yamlUnmarshal := fun _ _ => (some cfg, none),
    parseRequestURI := neturl.ParseRequestURI,
    httpGet := fun _ _ => got,
    jsonUnmarshal := fun _ _ => decoded,
    jsonMarshalAlerts := fun _ => Except.ok "[]",
    jsonMarshalBody := fun _ => Except.ok "[]",
    goSyntaxAlerts := fun _ => "",
    goSyntaxBody := fun _ => "",
    httpPost := fun _ _ _ _ => posted }

/-- A configuration in the shape of `configs/exporter.yaml`, with the two
target URLs and the two timeouts left open. -/
def sampleConfig (collectUrl alertUrl : String) (collectTimeout alertTimeout : Option Int) :
    yamlContent :=
  { CollectConfigs := { TargetUrl := collectUrl, TimeOut := collectTimeout },
    AlertConfigs :=
      { TargetUrl := alertUrl, TimeOut := alertTimeout,
        StateSettings :=
          { NormalState := some ["Enabled", "Qualified"],
            NormalHealth := some ["OK", "Warning"] } } }

/-- The resource `{"status": {"state": state, "health": health}}`. -/
def sampleDevice (state health : String) : GoMap :=
  [("status", Value.object [("state", Value.string state), ("health", Value.string health)])]

/-! ## The validation order, as the specification words it -/

/-- The six checks on a parsed configuration, in the order collector URL,
alert URL, collector timeout, alert timeout, normal-state set, normal-health
set; each entry is the error of that check, if it fails. -/
def configChecks (w : World) (cfg : yamlContent) : List (Option GoError) :=
  [ validConfigUrl w "collect_configs/target_url" cfg.CollectConfigs.TargetUrl,
    validConfigUrl w "alert_config/target_url" cfg.AlertConfigs.TargetUrl,
    (validConfigTime "collect_configs/timeout" cfg.CollectConfigs.TimeOut).2.1,
    (validConfigTime "alert_config/timeout" cfg.AlertConfigs.TimeOut).2.1,
    validConfigSliceRequired "alert_config/state_settings/normal_state"
      cfg.AlertConfigs.StateSettings.NormalState,
    validConfigSliceRequired "alert_config/state_settings/normal_health"
      cfg.AlertConfigs.StateSettings.NormalHealth ]

/-- The error of the first failing check of a list, if any fails. -/
def firstFailure : List (Option GoError) → Option GoError
  | [] => none
  | some err :: _ => some err
  | none :: rest => firstFailure rest

/-- The value a call returned, `none` when it panicked. -/
def Outcome.result? {α : Type} : Outcome α → Option α
  | Outcome.returned a => some a
  | Outcome.panicked _ => none

/-- The name and the number of items of each dispatch, in launch order (`none`
for a nil item list). -/
def dispatchSummary (h : Handled) : List (String × Option Nat) :=
  h.dispatches.map (fun d => (d.alertName, d.alerts.map List.length))

/-- The collector URL and the alert URL of the sample runs. -/
def sampleCollectUrl : String := "http://localhost:8080/cdim/api/v1/devices"

def sampleAlertUrl : String := "http://localhost:9093/api/v2/alerts"

/-- A world with a valid configuration in which the collector answers 200
and its body decodes to `output`. -/
def fetchedWorld (output : Output) : World :=
  stubWorld (sampleConfig sampleCollectUrl sampleAlertUrl (some 30) none)
    (GetResult.response 200 (some "body")) (Except.ok output) (PostResult.response 200)

/-! ## The requests a run issues -/

/-- The request handed to `httpClient.Get`. -/
structure GetRequest where
  url : String
  timeout : Int
deriving DecidableEq, Repr

/-- The calls to `httpClient.Get` that `requestDevices` makes (line 259): one,
with the collector URL and the timeout of line 257, unless the dereference of
line 257 panics first. -/
def requestDevicesGets (settings : yamlContent) : List GetRequest :=
  match settings.CollectConfigs.TimeOut with
  | none => []
  | some timeout => [{ url := settings.CollectConfigs.TargetUrl, timeout := timeout }]

/-- The calls to `httpClient.Get` that `GetDevices` makes: those of
`requestDevices`, which line 123 reaches only when `loadConfig` returned no
error (lines 115-120). -/
def GetDevicesGets (w : World) : List GetRequest :=
  match loadConfig w yamlFilePath yamlContent.zero with
  | Outcome.returned (settings, none, _) => requestDevicesGets settings
  | _ => []

/-! ## Words of the specification -/

/-- A success HTTP status: one of the class 2xx. -/
def successStatus (code : Int) : Bool :=
  decide (200 ≤ code) && decide (code ≤ 299)

/-- The documented codes of configuration errors. -/
def configCodes : List String :=
  ["0001", "0002", "0010", "0011", "0012", "0013", "0014"]

/-- The documented codes of fetch errors. -/
def fetchCodes : List String :=
  ["0006", "0007", "0008", "0009"]

/-- The structured body `{code, message}` of a failure response. -/
def errorBody (code message : String) : Body :=
  Body.h (some [("code", Value.string code), ("message", Value.string message)])

/-- The error returned by a run of `loadConfig`: `none` when it panicked,
`some none` when it returned nil. -/
def loadConfigError (r : Outcome (yamlContent × Option GoError × List LogLine)) :
    Option (Option GoError) :=
  r.result?.map (fun p => p.2.1)

/-- The caller's settings after a run of `loadConfig`, `none` when it
panicked. -/
def loadConfigSettings (r : Outcome (yamlContent × Option GoError × List LogLine)) :
    Option yamlContent :=
  r.result?.map (fun p => p.1)

/-- A world whose configuration file is a YAML null document (`~`):
`yaml.Unmarshal` returns no error and sets the pointer to nil. -/
def nullDocumentWorld : World :=
  { stubWorld yamlContent.zero (GetResult.failed "") (Except.error "")
      (PostResult.failed "") with
    readFile := fun _ => some "~",
    yamlUnmarshal := fun _ _ => (none, none) }

/-- The logger calls of a run of `postAlert`, `none` when it panicked. -/
def postAlertLog (r : Outcome PostAlertRun) : Option (List LogLine) :=
  r.result?.map (fun run => run.log)

/-- The error returned by a run of `requestDevices`: `none` when it panicked,
`some none` when it returned nil. -/
def requestDevicesError (r : Outcome (Output × Option GoError)) : Option (Option GoError) :=
  r.result?.map (fun p => p.2)

end controller

/-! ## Theorems -/

namespace controller

/-! ## Status classification -/

theorem slicesContains_iff (s : Option (List String)) (v : String) :
    slicesContains s v = true ↔ v ∈ rangeOf s := by
  simp [slicesContains]

theorem isResourceStatusOne_iff (key : String) (statusMap : GoMap)
    (normal : Option (List String)) :
    (isResourceStatusOne key statusMap normal).1 = true ↔
      ∃ v, statusMap.lookup key = some (Value.string v) ∧ v ∈ rangeOf normal := by
  unfold isResourceStatusOne
  split
  · rename_i status h
    simp [h, slicesContains_iff]
  · rename_i h
    constructor
    · intro hf
      simp at hf
    · rintro ⟨v, hv, _⟩
      exact absurd hv (h v)

theorem isResourceStatus_true_iff (r : GoMap) (s : yamlStateSetting) :
    (isResourceStatus r s).1 = true ↔
      ∃ status, r.lookup "status" = some (Value.object status) ∧
        (isResourceStatusOne "state" status s.NormalState).1 = true ∧
        (isResourceStatusOne "health" status s.NormalHealth).1 = true := by
  unfold isResourceStatus
  split
  · rename_i status h
    cases h1 : (isResourceStatusOne "state" status s.NormalState).1 <;>
      cases h2 : (isResourceStatusOne "health" status s.NormalHealth).1 <;>
      simp [h, h1, h2]
  · rename_i h
    constructor
    · intro hf
      simp at hf
    · rintro ⟨status, hs, _⟩
      exact absurd hs (h status)

/-- C1: `isResourceStatus` returns true exactly when the resource has a
"status" entry that is a map, whose "state" is a string in the normal states
and whose "health" is a string in the normal healths; when "status" is missing
or not a map, or "state" or "health" is missing or not a string, it returns
false. -/
theorem isResourceStatus_spec (r : GoMap) (s : yamlStateSetting) :
    ((isResourceStatus r s).1 = true ↔
      ∃ status state health,
        r.lookup "status" = some (Value.object status) ∧
        status.lookup "state" = some (Value.string state) ∧
        state ∈ rangeOf s.NormalState ∧
        status.lookup "health" = some (Value.string health) ∧
        health ∈ rangeOf s.NormalHealth) ∧
    ((∀ status, r.lookup "status" ≠ some (Value.object status)) →
      (isResourceStatus r s).1 = false) ∧
    (∀ status, r.lookup "status" = some (Value.object status) →
      ((∀ v, status.lookup "state" ≠ some (Value.string v)) ∨
       (∀ v, status.lookup "health" ≠ some (Value.string v))) →
      (isResourceStatus r s).1 = false) := by
  have key := isResourceStatus_true_iff r s
  refine ⟨?_, ?_, ?_⟩
  · rw [key]
    constructor
    · rintro ⟨status, hs, h1, h2⟩
      obtain ⟨state, hst, hmem⟩ := (isResourceStatusOne_iff _ _ _).1 h1
      obtain ⟨health, hh, hmem2⟩ := (isResourceStatusOne_iff _ _ _).1 h2
      exact ⟨status, state, health, hs, hst, hmem, hh, hmem2⟩
    · rintro ⟨status, state, health, hs, hst, hmem, hh, hmem2⟩
      exact ⟨status, hs, (isResourceStatusOne_iff _ _ _).2 ⟨state, hst, hmem⟩,
        (isResourceStatusOne_iff _ _ _).2 ⟨health, hh, hmem2⟩⟩
  · intro h
    rw [← Bool.not_eq_true, key]
    rintro ⟨status, hs, _⟩
    exact h status hs
  · intro status hs h
    rw [← Bool.not_eq_true, key]
    rintro ⟨status2, hs2, h1, h2⟩
    have heq : status2 = status := by
      rw [hs] at hs2
      injection hs2 with e
      injection e with e2
      exact e2.symm
    subst heq
    obtain ⟨state, hst, _⟩ := (isResourceStatusOne_iff _ _ _).1 h1
    obtain ⟨health, hh, _⟩ := (isResourceStatusOne_iff _ _ _).1 h2
    rcases h with h | h
    · exact h state hst
    · exact h health hh

/-- Witness of C1 on the resources of `Test_isResourceStatus`: a resource
whose "status" is a string is abnormal, one whose "state" is the number 1 is
abnormal, and the resource with state "Enabled" and health "OK" is normal. -/
theorem isResourceStatus_spec_witness :
    (isResourceStatus [("status", Value.string "aaa")]
        { NormalState := some ["Enabled", "Qualified"],
          NormalHealth := some ["OK", "Warning"] }).1 = false ∧
    (isResourceStatus
        [("status", Value.object [("state", Value.other "int"), ("health", Value.string "OK")])]
        { NormalState := some ["Enabled", "Qualified"],
          NormalHealth := some ["OK", "Warning"] }).1 = false ∧
    (isResourceStatus (sampleDevice "Enabled" "OK")
        { NormalState := some ["Enabled", "Qualified"],
          NormalHealth := some ["OK", "Warning"] }).1 = true :=
  ⟨(isResourceStatus_spec _ _).2.1 (by intro status h; simp [List.lookup] at h),
   (isResourceStatus_spec _ _).2.2 _ rfl (Or.inl (by intro v h; simp [List.lookup] at h)),
   (isResourceStatus_spec _ _).1.2
     ⟨_, "Enabled", "OK", rfl, rfl, by simp [rangeOf], rfl, by simp [rangeOf]⟩⟩

/-! ## Classify and partition -/

theorem partitionStep_foldl (s : yamlStateSetting) (ds : List GoMap) (acc : Partition) :
    (ds.foldl (partitionStep s) acc).resources = acc.resources ++ ds.map Value.object ∧
    (ds.foldl (partitionStep s) acc).abnormalResources =
      acc.abnormalResources ++
        (ds.filter (fun d => !(isResourceStatus d s).1)).map Value.object := by
  induction ds generalizing acc with
  | nil => simp
  | cons d ds ih =>
    rw [List.foldl_cons]
    obtain ⟨h1, h2⟩ := ih (partitionStep s acc d)
    rw [h1, h2]
    unfold partitionStep
    cases hd : (isResourceStatus d s).1 <;> simp [hd, List.filter_cons]

/-- C2: the classify-and-partition loop of `GetDevices` leaves in `resources`
the upstream device list itself (same length, same elements, same order) and
in `abnormalResources` the order-preserving sub-list of exactly those devices
for which `isResourceStatus` returns false. -/
theorem partitionDevices_spec (ds : Option (List GoMap)) (s : yamlStateSetting) :
    (partitionDevices ds s).resources = (rangeOf ds).map Value.object ∧
    (partitionDevices ds s).resources.length = (rangeOf ds).length ∧
    (partitionDevices ds s).abnormalResources =
      ((rangeOf ds).filter (fun d => (isResourceStatus d s).1 = false)).map Value.object ∧
    List.Sublist (partitionDevices ds s).abnormalResources (partitionDevices ds s).resources := by
  obtain ⟨h1, h2⟩ := partitionStep_foldl s (rangeOf ds)
    { resources := [], abnormalResources := [], log := [] }
  have e1 : (partitionDevices ds s).resources = (rangeOf ds).map Value.object := by
    simpa [partitionDevices] using h1
  have e2 : (partitionDevices ds s).abnormalResources =
      ((rangeOf ds).filter (fun d => (isResourceStatus d s).1 = false)).map Value.object := by
    have : (fun d : GoMap => !(isResourceStatus d s).1)
        = (fun d : GoMap => decide ((isResourceStatus d s).1 = false)) := by
      funext d
      cases (isResourceStatus d s).1 <;> rfl
    simpa [partitionDevices, this] using h2
  refine ⟨e1, ?_, e2, ?_⟩
  · rw [e1, List.length_map]
  · rw [e1, e2]
    exact List.Sublist.map _ (List.filter_sublist _)

theorem partitionDevices_body (ds : Option (List GoMap)) (s : yamlStateSetting) :
    (partitionDevices ds s).resources = (rangeOf ds).map Value.object ∧
    (partitionDevices ds s).abnormalResources =
      ((rangeOf ds).filter (fun d => (isResourceStatus d s).1 = false)).map Value.object := by
  obtain ⟨h1, h2⟩ := partitionStep_foldl s (rangeOf ds)
    { resources := [], abnormalResources := [], log := [] }
  refine ⟨by simpa [partitionDevices] using h1, ?_⟩
  have : (fun d : GoMap => !(isResourceStatus d s).1)
      = (fun d : GoMap => decide ((isResourceStatus d s).1 = false)) := by
    funext d
    cases (isResourceStatus d s).1 <;> rfl
  simpa [partitionDevices, this] using h2

/-! ## Configuration validation -/

/-- C3: `validConfigTime` returns a timeout `t` with `1 ≤ t ≤ 36000` unchanged
and without error (the boundary values 1 and 36000 included), returns the
range error with code 0012 (and no value) when `t < 1` or `t > 36000`, and
returns 600 without error when the timeout is nil. -/
theorem validConfigTime_spec (targetName : String) :
    (∀ t : Int, 1 ≤ t → t ≤ 36000 →
      (validConfigTime targetName (some t)).1 = some t ∧
      (validConfigTime targetName (some t)).2.1 = none) ∧
    ((validConfigTime targetName (some 1)).1 = some 1 ∧
      (validConfigTime targetName (some 1)).2.1 = none) ∧
    ((validConfigTime targetName (some 36000)).1 = some 36000 ∧
      (validConfigTime targetName (some 36000)).2.1 = none) ∧
    (∀ t : Int, t < 1 ∨ t > 36000 →
      (validConfigTime targetName (some t)).1 = none ∧
      (validConfigTime targetName (some t)).2.1 =
        some (GoError.expError
          { StatusCode := 500, Code := "0012",
            Message := targetName ++ " value is out of range." })) ∧
    ((validConfigTime targetName none).1 = some 600 ∧
      (validConfigTime targetName none).2.1 = none) := by
  have inRange : ∀ t : Int, 1 ≤ t → t ≤ 36000 →
      (validConfigTime targetName (some t)).1 = some t ∧
      (validConfigTime targetName (some t)).2.1 = none := by
    intro t h1 h2
    have hn : ¬ (t < minTimeout ∨ t > maxTimeout) := by
      simp only [minTimeout, maxTimeout]
      omega
    simp [validConfigTime, hn]
  refine ⟨inRange, inRange 1 (by decide) (by decide),
    inRange 36000 (by decide) (by decide), ?_, ?_⟩
  · intro t h
    have hy : t < minTimeout ∨ t > maxTimeout := by
      simp only [minTimeout, maxTimeout]
      omega
    simp [validConfigTime, hy, ExpErrorNew, StatusInternalServerError]
  · simp [validConfigTime, defaultTimeout]

/-- Witness of C3: 30 is returned unchanged, 0 and 36001 give the error 0012. -/
theorem validConfigTime_spec_witness :
    ((validConfigTime "collect_configs/timeout" (some 30)).1 = some 30 ∧
      (validConfigTime "collect_configs/timeout" (some 30)).2.1 = none) ∧
    (validConfigTime "collect_configs/timeout" (some 0)).2.1 =
      some (GoError.expError
        { StatusCode := 500, Code := "0012",
          Message := "collect_configs/timeout" ++ " value is out of range." }) ∧
    (validConfigTime "collect_configs/timeout" (some 36001)).2.1 =
      some (GoError.expError
        { StatusCode := 500, Code := "0012",
          Message := "collect_configs/timeout" ++ " value is out of range." }) :=
  ⟨(validConfigTime_spec "collect_configs/timeout").1 30 (by decide) (by decide),
   ((validConfigTime_spec "collect_configs/timeout").2.2.2.1 0 (Or.inl (by decide))).2,
   ((validConfigTime_spec "collect_configs/timeout").2.2.2.1 36001 (Or.inr (by decide))).2⟩

/-- What `validConfigUrl` returns, in terms of the verdict of
`url.ParseRequestURI`. -/
theorem validConfigUrl_cases (w : World) (targetName targetValue : String) :
    (targetValue = "" →
      validConfigUrl w targetName targetValue =
        some (GoError.expError
          { StatusCode := 500, Code := "0010",
            Message := targetName ++ " setting is required." })) ∧
    (targetValue ≠ "" → w.parseRequestURI targetValue = false →
      validConfigUrl w targetName targetValue =
        some (GoError.expError
          { StatusCode := 500, Code := "0011",
            Message := targetName ++ " Format of the url is invalid." })) ∧
    (targetValue ≠ "" → w.parseRequestURI targetValue = true →
      validConfigUrl w targetName targetValue = none) := by
  refine ⟨?_, ?_, ?_⟩
  · intro h
    simp [validConfigUrl, h, ExpErrorNew, StatusInternalServerError]
  · intro h hp
    simp [validConfigUrl, h, hp, ExpErrorNew, StatusInternalServerError]
  · intro h hp
    simp [validConfigUrl, h, hp]

theorem validConfigUrl_none_iff (w : World) (targetName targetValue : String) :
    validConfigUrl w targetName targetValue = none ↔
      targetValue ≠ "" ∧ w.parseRequestURI targetValue = true := by
  unfold validConfigUrl
  by_cases h : targetValue = ""
  · simp [h]
  · cases hp : w.parseRequestURI targetValue <;> simp [h, hp]

/-- C4 (evaluation at the failing input): `validConfigUrl` returns no error
for the collector URL "/devices", a value without scheme (a relative
reference, not an absolute URI), because `url.ParseRequestURI` accepts
absolute paths; the same holds for "*". -/
theorem validConfigUrl_accepts_absolute_path :
    validConfigUrl
        (stubWorld yamlContent.zero (GetResult.failed "") (Except.error "")
          (PostResult.failed ""))
        "collect_configs/target_url" "/devices" = none ∧
    neturl.schemeOf "/devices" = "" ∧
    validConfigUrl
        (stubWorld yamlContent.zero (GetResult.failed "") (Except.error "")
          (PostResult.failed ""))
        "collect_configs/target_url" "*" = none ∧
    neturl.schemeOf "*" = "" := by
  decide

/-- C5: `validConfigSliceRequired` returns the error with code 0013 for the
nil slice, the error with code 0014 for a non-nil slice of length zero, and no
error for a slice with at least one element. -/
theorem validConfigSliceRequired_spec (targetName : String) :
    validConfigSliceRequired targetName none =
      some (GoError.expError
        { StatusCode := 500, Code := "0013", Message := targetName ++ " value is nil." }) ∧
    validConfigSliceRequired targetName (some []) =
      some (GoError.expError
        { StatusCode := 500, Code := "0014", Message := targetName ++ " value is blank." }) ∧
    (∀ xs : List String, 1 ≤ xs.length →
      validConfigSliceRequired targetName (some xs) = none) := by
  refine ⟨rfl, rfl, ?_⟩
  intro xs h
  have hne : xs.length ≠ 0 := by omega
  simp only [validConfigSliceRequired]
  rw [if_neg hne]

/-- Witness of C5: the one-element list `["Enabled"]` passes. -/
theorem validConfigSliceRequired_spec_witness :
    validConfigSliceRequired "alert_config/state_settings/normal_state" (some ["Enabled"])
      = none :=
  (validConfigSliceRequired_spec "alert_config/state_settings/normal_state").2.2
    ["Enabled"] (by decide)

theorem validConfigSliceRequired_none_iff (targetName : String)
    (targetValue : Option (List String)) :
    validConfigSliceRequired targetName targetValue = none ↔
      ∃ xs, targetValue = some xs ∧ xs ≠ [] := by
  cases targetValue with
  | none => simp [validConfigSliceRequired]
  | some xs =>
    cases xs with
    | nil => simp [validConfigSliceRequired]
    | cons x xs => simp [validConfigSliceRequired]

/-! ## The order of the checks -/

theorem loadConfig_parsed (w : World) (filepath buf : String) (settings cfg : yamlContent)
    (hread : w.readFile filepath = some buf)
    (hyaml : w.yamlUnmarshal buf settings = (some cfg, none)) :
    loadConfig w filepath settings = Outcome.returned (loadConfig.validate w cfg) := by
  simp only [loadConfig, hread, hyaml]

theorem validate_error (w : World) (cfg : yamlContent) :
    (loadConfig.validate w cfg).2.1 = firstFailure (configChecks w cfg) := by
  simp only [loadConfig.validate, configChecks]
  cases validConfigUrl w "collect_configs/target_url" cfg.CollectConfigs.TargetUrl <;>
    cases validConfigUrl w "alert_config/target_url" cfg.AlertConfigs.TargetUrl <;>
    cases (validConfigTime "collect_configs/timeout" cfg.CollectConfigs.TimeOut).2.1 <;>
    cases (validConfigTime "alert_config/timeout" cfg.AlertConfigs.TimeOut).2.1 <;>
    cases validConfigSliceRequired "alert_config/state_settings/normal_state"
      cfg.AlertConfigs.StateSettings.NormalState <;>
    cases validConfigSliceRequired "alert_config/state_settings/normal_health"
      cfg.AlertConfigs.StateSettings.NormalHealth <;>
    simp [firstFailure]

theorem firstFailure_none_iff (checks : List (Option GoError)) :
    firstFailure checks = none ↔ ∀ c ∈ checks, c = none := by
  induction checks with
  | nil => simp [firstFailure]
  | cons c rest ih =>
    cases c with
    | none => simp [firstFailure, ih]
    | some err => simp [firstFailure]

/-- C6: on a parsed configuration `loadConfig` returns the error of the first
failing check in the order collector URL, alert URL, collector timeout, alert
timeout, normal-state set, normal-health set; it returns no error exactly when
all six checks pass; and a configuration with an empty collector URL fails
with code 0010 whatever its alert timeout is. -/
theorem loadConfig_first_failure (w : World) (filepath buf : String)
    (settings cfg : yamlContent)
    (hread : w.readFile filepath = some buf)
    (hyaml : w.yamlUnmarshal buf settings = (some cfg, none)) :
    loadConfigError (loadConfig w filepath settings)
      = some (firstFailure (configChecks w cfg)) ∧
    (loadConfigError (loadConfig w filepath settings) = some none ↔
      ∀ c ∈ configChecks w cfg, c = none) ∧
    (cfg.CollectConfigs.TargetUrl = "" →
      loadConfigError (loadConfig w filepath settings) =
        some (some (GoError.expError
          { StatusCode := 500, Code := "0010",
            Message := "collect_configs/target_url setting is required." }))) := by
  have key : loadConfigError (loadConfig w filepath settings)
      = some (firstFailure (configChecks w cfg)) := by
    rw [loadConfig_parsed w filepath buf settings cfg hread hyaml]
    simp only [loadConfigError, Outcome.result?, Option.map_some', validate_error]
  refine ⟨key, ?_, ?_⟩
  · rw [key, Option.some.injEq]
    exact firstFailure_none_iff _
  · intro hempty
    rw [key]
    have h := (validConfigUrl_cases w "collect_configs/target_url"
      cfg.CollectConfigs.TargetUrl).1 hempty
    simp only [configChecks, h, firstFailure]
    rfl

/-- Witness of C6: the configuration with an empty collector URL and the
out-of-range alert timeout 0 fails with code 0010, not 0012. -/
theorem loadConfig_first_failure_witness :
    loadConfigError
        (loadConfig
          (stubWorld (sampleConfig "" "http://localhost:9093/api/v2/alerts" (some 30) (some 0))
            (GetResult.failed "") (Except.error "") (PostResult.failed ""))
          yamlFilePath yamlContent.zero) =
      some (some (GoError.expError
        { StatusCode := 500, Code := "0010",
          Message := "collect_configs/target_url setting is required." })) ∧
    (validConfigTime "alert_config/timeout" (some 0)).2.1 =
      some (GoError.expError
        { StatusCode := 500, Code := "0012",
          Message := "alert_config/timeout value is out of range." }) :=
  ⟨(loadConfig_first_failure
      (stubWorld (sampleConfig "" "http://localhost:9093/api/v2/alerts" (some 30) (some 0))
        (GetResult.failed "") (Except.error "") (PostResult.failed ""))
      yamlFilePath "" yamlContent.zero
      (sampleConfig "" "http://localhost:9093/api/v2/alerts" (some 30) (some 0))
      rfl rfl).2.2 rfl,
   by decide⟩

/-! ## What a successful load guarantees -/

theorem validConfigTime_ok (targetName : String) (targetValue : Option Int)
    (h : (validConfigTime targetName targetValue).2.1 = none) :
    ∃ t, (validConfigTime targetName targetValue).1 = some t ∧ 1 ≤ t ∧ t ≤ 36000 ∧
      (targetValue = none → t = 600) ∧ (∀ t0, targetValue = some t0 → t = t0) := by
  cases targetValue with
  | none => exact ⟨600, rfl, by decide, by decide, fun _ => rfl, fun t0 h0 => by cases h0⟩
  | some t0 =>
    by_cases hr : t0 < minTimeout ∨ t0 > maxTimeout
    · simp [validConfigTime, hr] at h
    · refine ⟨t0, by simp [validConfigTime, hr], ?_, ?_, ?_, ?_⟩
      · simp only [minTimeout, maxTimeout] at hr
        omega
      · simp only [minTimeout, maxTimeout] at hr
        omega
      · intro h0
        cases h0
      · intro t1 h1
        cases h1
        rfl

theorem validate_settings (w : World) (cfg : yamlContent)
    (hok : (loadConfig.validate w cfg).2.1 = none) :
    (loadConfig.validate w cfg).1 =
      { CollectConfigs :=
          { TargetUrl := cfg.CollectConfigs.TargetUrl,
            TimeOut := (validConfigTime "collect_configs/timeout" cfg.CollectConfigs.TimeOut).1 },
        AlertConfigs :=
          { TargetUrl := cfg.AlertConfigs.TargetUrl,
            TimeOut := (validConfigTime "alert_config/timeout" cfg.AlertConfigs.TimeOut).1,
            StateSettings := cfg.AlertConfigs.StateSettings } } := by
  revert hok
  simp only [loadConfig.validate]
  cases validConfigUrl w "collect_configs/target_url" cfg.CollectConfigs.TargetUrl <;>
    cases validConfigUrl w "alert_config/target_url" cfg.AlertConfigs.TargetUrl <;>
    cases (validConfigTime "collect_configs/timeout" cfg.CollectConfigs.TimeOut).2.1 <;>
    cases (validConfigTime "alert_config/timeout" cfg.AlertConfigs.TimeOut).2.1 <;>
    cases validConfigSliceRequired "alert_config/state_settings/normal_state"
      cfg.AlertConfigs.StateSettings.NormalState <;>
    cases validConfigSliceRequired "alert_config/state_settings/normal_health"
      cfg.AlertConfigs.StateSettings.NormalHealth <;>
    simp

theorem requestDevices_returns (w : World) (settings : yamlContent) (output : Output)
    (t : Int) (h : settings.CollectConfigs.TimeOut = some t) :
    ∃ r, requestDevices w settings output = Outcome.returned r := by
  simp only [requestDevices, h]
  repeat' split
  all_goals exact ⟨_, rfl⟩

theorem postAlert_returns (w : World) (alertName : String) (alerts : Option (List Value))
    (settings : yamlContent) (t : Int) (h : settings.AlertConfigs.TimeOut = some t) :
    ∃ run, postAlert w alertName alerts settings = Outcome.returned run := by
  simp only [postAlert, h]
  repeat' split
  all_goals exact ⟨_, rfl⟩

/-- The part of the Settings invariants that holds after every successful
load: both URLs are non-empty and accepted by `url.ParseRequestURI`, both
timeouts are non-nil, within `[1, 36000]`, equal to 600 where the
configuration omitted them and unchanged otherwise, both normal-value lists
are non-empty, and neither `requestDevices` nor `postAlert` panics on the
loaded settings. -/
theorem loadConfig_invariants (w : World) (filepath buf : String)
    (settings cfg loaded : yamlContent) (log : List LogLine)
    (hread : w.readFile filepath = some buf)
    (hyaml : w.yamlUnmarshal buf settings = (some cfg, none))
    (hload : loadConfig w filepath settings = Outcome.returned (loaded, none, log)) :
    (loaded.CollectConfigs.TargetUrl ≠ "" ∧
      w.parseRequestURI loaded.CollectConfigs.TargetUrl = true) ∧
    (loaded.AlertConfigs.TargetUrl ≠ "" ∧
      w.parseRequestURI loaded.AlertConfigs.TargetUrl = true) ∧
    (∃ t, loaded.CollectConfigs.TimeOut = some t ∧
      1 ≤ t ∧ t ≤ 36000 ∧ (cfg.CollectConfigs.TimeOut = none → t = 600) ∧
      (∀ t0, cfg.CollectConfigs.TimeOut = some t0 → t = t0)) ∧
    (∃ t, loaded.AlertConfigs.TimeOut = some t ∧
      1 ≤ t ∧ t ≤ 36000 ∧ (cfg.AlertConfigs.TimeOut = none → t = 600) ∧
      (∀ t0, cfg.AlertConfigs.TimeOut = some t0 → t = t0)) ∧
    (∃ xs, loaded.AlertConfigs.StateSettings.NormalState = some xs ∧ xs ≠ []) ∧
    (∃ xs, loaded.AlertConfigs.StateSettings.NormalHealth = some xs ∧ xs ≠ []) ∧
    (∀ output, ∃ r, requestDevices w loaded output = Outcome.returned r) ∧
    (∀ alertName alerts, ∃ run,
      postAlert w alertName alerts loaded = Outcome.returned run) := by
  rw [loadConfig_parsed w filepath buf settings cfg hread hyaml] at hload
  have hval : loadConfig.validate w cfg = (loaded, none, log) := Outcome.returned.inj hload
  have hok : (loadConfig.validate w cfg).2.1 = none := by rw [hval]
  have hs := validate_settings w cfg hok
  have hloaded : loaded = (loadConfig.validate w cfg).1 := by rw [hval]
  have hall := (firstFailure_none_iff _).1 ((validate_error w cfg).symm.trans hok)
  simp only [configChecks, List.mem_cons, List.mem_singleton, List.not_mem_nil, or_false,
    forall_eq_or_imp, forall_eq] at hall
  obtain ⟨c1, c2, c3, c4, c5, c6⟩ := hall
  obtain ⟨t1, ht1, ht1'⟩ := validConfigTime_ok _ _ c3
  obtain ⟨t2, ht2, ht2'⟩ := validConfigTime_ok _ _ c4
  rw [hloaded, hs]
  refine ⟨(validConfigUrl_none_iff _ _ _).1 c1, (validConfigUrl_none_iff _ _ _).1 c2,
    ⟨t1, ht1, ht1'⟩, ⟨t2, ht2, ht2'⟩, (validConfigSliceRequired_none_iff _ _).1 c5,
    (validConfigSliceRequired_none_iff _ _).1 c6, ?_, ?_⟩
  · intro output
    exact requestDevices_returns w _ output t1 ht1
  · intro alertName alerts
    exact postAlert_returns w alertName alerts _ t2 ht2

/-- A run of `loadConfig` that returns nil has read the file, decoded it
without error into a non-nil pointer, and passed the six checks. -/
theorem loadConfig_returned_nil (w : World) (filepath : String)
    (settings loaded : yamlContent) (log : List LogLine)
    (h : loadConfig w filepath settings = Outcome.returned (loaded, none, log)) :
    ∃ buf cfg, w.readFile filepath = some buf ∧
      w.yamlUnmarshal buf settings = (some cfg, none) ∧
      loadConfig.validate w cfg = (loaded, none, log) := by
  cases hread : w.readFile filepath with
  | none => simp [loadConfig, hread] at h
  | some buf =>
    rcases hyaml : w.yamlUnmarshal buf settings with ⟨_ | cfg, _ | text⟩
    · simp [loadConfig, hread, hyaml] at h
    · simp [loadConfig, hread, hyaml] at h
    · rw [loadConfig_parsed w filepath buf settings cfg hread hyaml] at h
      exact ⟨buf, cfg, rfl, hyaml, Outcome.returned.inj h⟩
    · simp [loadConfig, hread, hyaml] at h

/-- C7 (evaluation at the failing input): the configuration whose collector
URL is "/devices" loads without error, and the loaded collector URL is
"/devices", which has no scheme and so is not an absolute URI. -/
theorem loadConfig_accepts_absolute_path :
    loadConfigError
        (loadConfig
          (stubWorld
            (sampleConfig "/devices" "http://localhost:9093/api/v2/alerts" none (some 30))
            (GetResult.failed "") (Except.error "") (PostResult.failed ""))
          yamlFilePath yamlContent.zero) = some none ∧
    (loadConfigSettings
        (loadConfig
          (stubWorld
            (sampleConfig "/devices" "http://localhost:9093/api/v2/alerts" none (some 30))
            (GetResult.failed "") (Except.error "") (PostResult.failed ""))
          yamlFilePath yamlContent.zero)).map (fun loaded => loaded.CollectConfigs.TargetUrl)
      = some "/devices" ∧
    neturl.schemeOf "/devices" = "" := by
  decide

/-! ## The handler after a successful fetch -/

theorem alertNames_ne : incompleteDeviceList ≠ abnormalStatusDeviceList := by decide

/-- C8 (as amended): after a successful load and fetch `GetDevices` answers
200 with the full resource list, and it schedules the "incompleteDeviceList"
dispatch exactly when the decoded `incompleteDevices` slice is non-nil (an
empty list included), at most once and with that slice as its items; when the
slice is nil (absent or null) no such dispatch is scheduled and the step only
logs that the list did not exist. -/
theorem GetDevices_incomplete_dispatch (w : World) (path method : String) (output : Output)
    (settings : yamlContent) (loadLog : List LogLine)
    (hload : loadConfig w yamlFilePath yamlContent.zero
      = Outcome.returned (settings, none, loadLog))
    (hreq : requestDevices w settings Output.zero
      = Outcome.returned (output, none)) :
    ∃ h, GetDevices w path method = Outcome.returned h ∧
      h.status = 200 ∧
      h.body = Body.resources ((rangeOf output.Devices).map Value.object) ∧
      ((∃ d ∈ h.dispatches, d.alertName = incompleteDeviceList) ↔
        output.IncompleteDevices ≠ none) ∧
      (h.dispatches.filter (fun d => d.alertName = incompleteDeviceList)).length ≤ 1 ∧
      (∀ d ∈ h.dispatches, d.alertName = incompleteDeviceList →
        d.alerts = output.IncompleteDevices) ∧
      (output.IncompleteDevices = none →
        { level := Level.info,
          message := "incompleteDeviceList not existed. Not send an alert notification." }
          ∈ h.log) := by
  have hne := alertNames_ne
  have hmsg : incompleteDeviceList ++ " not existed. Not send an alert notification."
      = "incompleteDeviceList not existed. Not send an alert notification." := by decide
  have hres := (partitionDevices_body output.Devices
    settings.AlertConfigs.StateSettings)
  simp only [GetDevices, hload, hreq]
  refine ⟨_, rfl, rfl, ?_, ?_, ?_, ?_, ?_⟩
  · simp only [hres]
  all_goals
    cases hI : output.IncompleteDevices <;>
      by_cases hA : (partitionDevices output.Devices
        settings.AlertConfigs.StateSettings
        ).abnormalResources.length > 0 <;>
      simp [hA, hne, hne.symm, List.filter_cons, hmsg]

/-- Witness of C8 (as amended): with `incompleteDeviceList: ["dev-7"]` the
dispatch is scheduled and the answer is 200 with the full resource list. -/
theorem GetDevices_incomplete_dispatch_witness :
    ∃ h, GetDevices
        (fetchedWorld
          { Devices := some [sampleDevice "Enabled" "OK"],
            IncompleteDevices := some [Value.string "dev-7"], TimeStanp := "" })
        "/cdim/api/v1/devices/sync" "POST" = Outcome.returned h ∧
      h.status = 200 ∧
      h.body = Body.resources [Value.object (sampleDevice "Enabled" "OK")] ∧
      ∃ d ∈ h.dispatches, d.alertName = incompleteDeviceList := by
  obtain ⟨h, h1, h2, h3, h4, _⟩ := GetDevices_incomplete_dispatch
    (fetchedWorld
      { Devices := some [sampleDevice "Enabled" "OK"],
        IncompleteDevices := some [Value.string "dev-7"], TimeStanp := "" })
    "/cdim/api/v1/devices/sync" "POST"
    { Devices := some [sampleDevice "Enabled" "OK"],
      IncompleteDevices := some [Value.string "dev-7"], TimeStanp := "" }
    _ _ rfl rfl
  exact ⟨h, h1, h2, h3, h4.2 (by simp)⟩

/-- C8 (counterexample to the claim as stated): when the collector reports
`"incompleteDeviceList": []`, an empty but non-nil list, `GetDevices` still
schedules the "incompleteDeviceList" dispatch, with zero items. -/
theorem GetDevices_empty_incomplete_list_dispatched :
    (GetDevices
        (fetchedWorld { Devices := some [], IncompleteDevices := some [], TimeStanp := "" })
        "/cdim/api/v1/devices/sync" "POST").result?.map dispatchSummary
      = some [("incompleteDeviceList", some 0)] := by
  decide

theorem abnormal_nonempty_iff (ds : Option (List GoMap)) (s : yamlStateSetting) :
    (partitionDevices ds s).abnormalResources.length > 0 ↔
      ∃ dev ∈ rangeOf ds, (isResourceStatus dev s).1 = false := by
  rw [(partitionDevices_body ds s).2, List.length_map, gt_iff_lt, List.length_pos]
  constructor
  · intro h
    obtain ⟨dev, hdev⟩ := List.exists_mem_of_ne_nil _ h
    rw [List.mem_filter] at hdev
    exact ⟨dev, hdev.1, by simpa using hdev.2⟩
  · rintro ⟨dev, hmem, hdev⟩
    apply List.ne_nil_of_mem (a := dev)
    rw [List.mem_filter]
    exact ⟨hmem, by simpa using hdev⟩

/-- C9: after a successful load and fetch `GetDevices` answers 200 with the
full resource list, and it schedules the "abnormalStatusDeviceList" dispatch
exactly when at least one device is classified abnormal by `isResourceStatus`,
at most once, with the complete abnormal-resource list as its items; when
every device is normal no such dispatch is scheduled. -/
theorem GetDevices_abnormal_dispatch (w : World) (path method : String) (output : Output)
    (settings : yamlContent) (loadLog : List LogLine)
    (hload : loadConfig w yamlFilePath yamlContent.zero
      = Outcome.returned (settings, none, loadLog))
    (hreq : requestDevices w settings Output.zero
      = Outcome.returned (output, none)) :
    ∃ h, GetDevices w path method = Outcome.returned h ∧
      h.status = 200 ∧
      h.body = Body.resources ((rangeOf output.Devices).map Value.object) ∧
      ((∃ d ∈ h.dispatches, d.alertName = abnormalStatusDeviceList) ↔
        ∃ dev ∈ rangeOf output.Devices,
          (isResourceStatus dev
            settings.AlertConfigs.StateSettings).1
            = false) ∧
      (h.dispatches.filter (fun d => d.alertName = abnormalStatusDeviceList)).length ≤ 1 ∧
      (∀ d ∈ h.dispatches, d.alertName = abnormalStatusDeviceList →
        d.alerts = some (((rangeOf output.Devices).filter (fun dev =>
          (isResourceStatus dev
            settings.AlertConfigs.StateSettings).1
            = false)).map Value.object)) ∧
      ((∀ dev ∈ rangeOf output.Devices,
          (isResourceStatus dev
            settings.AlertConfigs.StateSettings).1
            = true) →
        ∀ d ∈ h.dispatches, d.alertName ≠ abnormalStatusDeviceList) := by
  have hne := alertNames_ne
  have hres := (partitionDevices_body output.Devices
    settings.AlertConfigs.StateSettings)
  have hiff := abnormal_nonempty_iff output.Devices
    settings.AlertConfigs.StateSettings
  simp only [GetDevices, hload, hreq]
  refine ⟨_, rfl, rfl, ?_, ?_, ?_, ?_, ?_⟩
  · simp only [hres]
  · rw [← hiff]
    cases hI : output.IncompleteDevices <;>
      by_cases hA : (partitionDevices output.Devices
        settings.AlertConfigs.StateSettings
        ).abnormalResources.length > 0 <;>
      simp [hA, hne, hne.symm]
  · cases hI : output.IncompleteDevices <;>
      by_cases hA : (partitionDevices output.Devices
        settings.AlertConfigs.StateSettings
        ).abnormalResources.length > 0 <;>
      simp [hA, hne, hne.symm, List.filter_cons]
  · rw [← hres.2]
    cases hI : output.IncompleteDevices <;>
      by_cases hA : (partitionDevices output.Devices
        settings.AlertConfigs.StateSettings
        ).abnormalResources.length > 0 <;>
      simp [hA, hne, hne.symm]
  · intro hall
    have hA : ¬ (partitionDevices output.Devices
        settings.AlertConfigs.StateSettings
        ).abnormalResources.length > 0 := by
      rw [hiff]
      rintro ⟨dev, hmem, hdev⟩
      rw [hall dev hmem] at hdev
      cases hdev
    cases hI : output.IncompleteDevices <;> simp [hA, hne, hne.symm]

/-- Witness of C9: of the two devices fetched, the second has health "NG";
the abnormal dispatch is scheduled and carries exactly that device. -/
theorem GetDevices_abnormal_dispatch_witness :
    ∃ h, GetDevices
        (fetchedWorld
          { Devices := some [sampleDevice "Enabled" "OK", sampleDevice "Enabled" "NG"],
            IncompleteDevices := none, TimeStanp := "" })
        "/cdim/api/v1/devices/sync" "POST" = Outcome.returned h ∧
      h.body = Body.resources
        [Value.object (sampleDevice "Enabled" "OK"),
         Value.object (sampleDevice "Enabled" "NG")] ∧
      (∃ d ∈ h.dispatches, d.alertName = abnormalStatusDeviceList) ∧
      dispatchSummary h = [("abnormalStatusDeviceList", some 1)] := by
  obtain ⟨h, h1, _, h3, h4, _⟩ := GetDevices_abnormal_dispatch
    (fetchedWorld
      { Devices := some [sampleDevice "Enabled" "OK", sampleDevice "Enabled" "NG"],
        IncompleteDevices := none, TimeStanp := "" })
    "/cdim/api/v1/devices/sync" "POST"
    { Devices := some [sampleDevice "Enabled" "OK", sampleDevice "Enabled" "NG"],
      IncompleteDevices := none, TimeStanp := "" }
    _ _ rfl rfl
  refine ⟨h, h1, h3, h4.2 ⟨sampleDevice "Enabled" "NG", by simp [rangeOf], by decide⟩, ?_⟩
  have e : Outcome.returned h = _ := h1.symm
  injection e with e'
  subst e'
  decide

/-! ## The alert envelope -/

/-- C10: for every alert name `n` and serialized item string `d`,
`NewAlertContentList n "critical" d` is a one-element sequence whose status is
"firing", whose labels are alertname `n`, instance and job
"configuration-exporter" and severity "critical", and whose description is
`d`; and a run of `postAlert` in which the items serialize to `d` and the
alert timeout is set returns having built exactly this envelope, the body of
any POST it issues being the serialization of this envelope. -/
theorem NewAlertContentList_envelope (n d : String) :
    NewAlertContentList n "critical" d =
      [{ Status := "firing",
         Labels := { Alertname := n, Instance := "configuration-exporter",
                     Job := "configuration-exporter", Severity := "critical" },
         Annotations := { Description := d } }] ∧
    (NewAlertContentList n "critical" d).length = 1 ∧
    (∀ (w : World) (alerts : Option (List Value)) (settings : yamlContent) (t : Int),
      w.jsonMarshalAlerts alerts = Except.ok d →
      settings.AlertConfigs.TimeOut = some t →
      ∃ run, postAlert w n alerts settings = Outcome.returned run ∧
        run.alertBody =
          some [{ Status := "firing",
                  Labels := { Alertname := n, Instance := "configuration-exporter",
                              Job := "configuration-exporter", Severity := "critical" },
                  Annotations := { Description := d } }] ∧
        (∀ request, run.posted = some request →
          w.jsonMarshalBody (NewAlertContentList n "critical" d) = Except.ok request.body)) := by
  refine ⟨rfl, rfl, ?_⟩
  intro w alerts settings t hd ht
  simp only [postAlert, hd, ht]
  split
  · exact ⟨_, rfl, rfl, by intro request hr; cases hr⟩
  · rename_i b hb
    split
    · refine ⟨_, rfl, rfl, ?_⟩
      intro request hr
      cases hr
      exact hb
    · refine ⟨_, rfl, rfl, ?_⟩
      intro request hr
      cases hr
      exact hb

/-- Witness of C10: the run of `postAlert` for "abnormalStatusDeviceList" in a
world where the items serialize to "[]" builds the envelope with that
description. -/
theorem NewAlertContentList_envelope_witness :
    ∃ run, postAlert
        (fetchedWorld Output.zero) "abnormalStatusDeviceList" (some [])
        (sampleConfig sampleCollectUrl sampleAlertUrl (some 30) (some 30))
        = Outcome.returned run ∧
      run.alertBody =
        some [{ Status := "firing",
                Labels := { Alertname := "abnormalStatusDeviceList",
                            Instance := "configuration-exporter",
                            Job := "configuration-exporter", Severity := "critical" },
                Annotations := { Description := "[]" } }] :=
  let ⟨run, h1, h2, _⟩ :=
    (NewAlertContentList_envelope "abnormalStatusDeviceList" "[]").2.2
      (fetchedWorld Output.zero) (some [])
      (sampleConfig sampleCollectUrl sampleAlertUrl (some 30) (some 30)) 30 rfl rfl
  ⟨run, h1, h2⟩

/-! ## The stages of the fetch -/

/-- C11 (as amended): once the timeout is dereferenced, `requestDevices`
reports the failure of the earliest failing stage and nothing else: a
transport failure gives 0006; otherwise a response whose status is not 200
gives 0007 whatever the body is, and a response with status 200 never gives
0007; otherwise a body read failure gives 0008; otherwise a body that
`json.Unmarshal` rejects gives 0009; otherwise it returns nil with the decoded
output. -/
theorem requestDevices_stages (w : World) (settings : yamlContent) (output : Output)
    (t : Int) (ht : settings.CollectConfigs.TimeOut = some t) :
    (∀ err, w.httpGet settings.CollectConfigs.TargetUrl t = GetResult.failed err →
      requestDevices w settings output = Outcome.returned
        (output, some (GoError.expError
          { StatusCode := 500, Code := "0006", Message := "Get request failure." }))) ∧
    (∀ code body, w.httpGet settings.CollectConfigs.TargetUrl t = GetResult.response code body →
      code ≠ 200 →
      requestDevices w settings output = Outcome.returned
        (output, some (GoError.expError
          { StatusCode := 500, Code := "0007", Message := "Collect target failure." }))) ∧
    (w.httpGet settings.CollectConfigs.TargetUrl t = GetResult.response 200 none →
      requestDevices w settings output = Outcome.returned
        (output, some (GoError.expError
          { StatusCode := 500, Code := "0008", Message := "Failed to read response." }))) ∧
    (∀ body err, w.httpGet settings.CollectConfigs.TargetUrl t
        = GetResult.response 200 (some body) →
      w.jsonUnmarshal body output = Except.error err →
      requestDevices w settings output = Outcome.returned
        (output, some (GoError.expError
          { StatusCode := 500, Code := "0009",
            Message := "Failed to unmarshal response." }))) ∧
    (∀ body decoded, w.httpGet settings.CollectConfigs.TargetUrl t
        = GetResult.response 200 (some body) →
      w.jsonUnmarshal body output = Except.ok decoded →
      requestDevices w settings output = Outcome.returned (decoded, none)) ∧
    (∀ body, w.httpGet settings.CollectConfigs.TargetUrl t = GetResult.response 200 body →
      ∀ out e, requestDevices w settings output
          = Outcome.returned (out, some (GoError.expError e)) →
        e.Code ≠ "0007") := by
  refine ⟨?_, ?_, ?_, ?_, ?_, ?_⟩
  · intro err h
    simp [requestDevices, ht, h, ExpErrorNew, StatusInternalServerError]
  · intro code body h hc
    simp [requestDevices, ht, h, hc, ExpErrorNew, StatusInternalServerError, StatusOK]
  · intro h
    simp [requestDevices, ht, h, ExpErrorNew, StatusInternalServerError, StatusOK]
  · intro body err h hj
    simp [requestDevices, ht, h, hj, ExpErrorNew, StatusInternalServerError, StatusOK]
  · intro body decoded h hj
    simp [requestDevices, ht, h, hj, StatusOK]
  · intro body h out e hr
    simp only [requestDevices, ht, h, StatusOK, ne_eq, not_true_eq_false, if_false] at hr
    revert hr
    repeat' split
    all_goals
      intro hr
      simp only [ExpErrorNew, Outcome.returned.injEq, Prod.mk.injEq, Option.some.injEq,
        GoError.expError.injEq] at hr
      try (rw [← hr.2]; decide)
    all_goals
      exact absurd hr.2 (by simp)

/-- Witness of C11 (as amended): when the collector answers 503 the fetch
fails with code 0007. -/
theorem requestDevices_stages_witness :
    requestDevices
        (stubWorld (sampleConfig sampleCollectUrl sampleAlertUrl (some 30) (some 30))
          (GetResult.response 503 (some "Service Unavailable")) (Except.ok Output.zero)
          (PostResult.response 200))
        (sampleConfig sampleCollectUrl sampleAlertUrl (some 30) (some 30)) Output.zero
      = Outcome.returned
        (Output.zero, some (GoError.expError
          { StatusCode := 500, Code := "0007", Message := "Collect target failure." })) :=
  (requestDevices_stages
    (stubWorld (sampleConfig sampleCollectUrl sampleAlertUrl (some 30) (some 30))
      (GetResult.response 503 (some "Service Unavailable")) (Except.ok Output.zero)
      (PostResult.response 200))
    (sampleConfig sampleCollectUrl sampleAlertUrl (some 30) (some 30)) Output.zero 30 rfl).2.1
    503 (some "Service Unavailable") rfl (by decide)

/-- C11 (counterexample to the claim as stated): 204 is a success HTTP status,
yet when the collector answers 204 `requestDevices` returns the error 0007. -/
theorem requestDevices_rejects_204 :
    successStatus 204 = true ∧
    requestDevicesError
        (requestDevices
          (stubWorld (sampleConfig sampleCollectUrl sampleAlertUrl (some 30) (some 30))
            (GetResult.response 204 (some "")) (Except.ok Output.zero)
            (PostResult.response 200))
          (sampleConfig sampleCollectUrl sampleAlertUrl (some 30) (some 30)) Output.zero)
      = some (some (GoError.expError
          { StatusCode := 500, Code := "0007", Message := "Collect target failure." })) := by
  decide

/-! ## The errors of the pipeline -/

theorem validConfigUrl_error (w : World) (targetName targetValue : String) (err : GoError)
    (h : validConfigUrl w targetName targetValue = some err) :
    ∃ e, err = GoError.expError e ∧ e.StatusCode = 500 ∧ e.Code ∈ configCodes := by
  unfold validConfigUrl at h
  split at h
  · cases h
    exact ⟨_, rfl, rfl, by simp [configCodes]⟩
  · split at h
    · cases h
      exact ⟨_, rfl, rfl, by simp [configCodes]⟩
    · cases h

theorem validConfigTime_error (targetName : String) (targetValue : Option Int) (err : GoError)
    (h : (validConfigTime targetName targetValue).2.1 = some err) :
    ∃ e, err = GoError.expError e ∧ e.StatusCode = 500 ∧ e.Code ∈ configCodes := by
  unfold validConfigTime at h
  split at h
  · cases h
  · split at h
    · cases h
      exact ⟨_, rfl, rfl, by simp [configCodes]⟩
    · cases h

theorem validConfigSliceRequired_error (targetName : String)
    (targetValue : Option (List String)) (err : GoError)
    (h : validConfigSliceRequired targetName targetValue = some err) :
    ∃ e, err = GoError.expError e ∧ e.StatusCode = 500 ∧ e.Code ∈ configCodes := by
  unfold validConfigSliceRequired at h
  split at h
  · cases h
    exact ⟨_, rfl, rfl, by simp [configCodes]⟩
  · split at h
    · cases h
      exact ⟨_, rfl, rfl, by simp [configCodes]⟩
    · cases h

theorem firstFailure_mem (checks : List (Option GoError)) (err : GoError)
    (h : firstFailure checks = some err) : some err ∈ checks := by
  induction checks with
  | nil => simp [firstFailure] at h
  | cons c rest ih =>
    cases c with
    | none =>
      simp only [firstFailure] at h
      exact List.mem_cons_of_mem _ (ih h)
    | some e =>
      simp only [firstFailure, Option.some.injEq] at h
      subst h
      exact List.mem_cons_self _ _

theorem validate_error_codes (w : World) (cfg : yamlContent) (err : GoError)
    (h : (loadConfig.validate w cfg).2.1 = some err) :
    ∃ e, err = GoError.expError e ∧ e.StatusCode = 500 ∧ e.Code ∈ configCodes := by
  rw [validate_error] at h
  have hmem := firstFailure_mem _ _ h
  simp only [configChecks, List.mem_cons, List.mem_singleton, List.not_mem_nil,
    or_false] at hmem
  rcases hmem with h1 | h1 | h1 | h1 | h1 | h1
  · exact validConfigUrl_error _ _ _ _ h1.symm
  · exact validConfigUrl_error _ _ _ _ h1.symm
  · exact validConfigTime_error _ _ _ h1.symm
  · exact validConfigTime_error _ _ _ h1.symm
  · exact validConfigSliceRequired_error _ _ _ h1.symm
  · exact validConfigSliceRequired_error _ _ _ h1.symm

theorem loadConfig_error_codes (w : World) (filepath : String)
    (settings loaded : yamlContent) (err : GoError) (log : List LogLine)
    (h : loadConfig w filepath settings = Outcome.returned (loaded, some err, log)) :
    ∃ e, err = GoError.expError e ∧ e.StatusCode = 500 ∧ e.Code ∈ configCodes := by
  cases hread : w.readFile filepath with
  | none =>
    simp only [loadConfig, hread, Outcome.returned.injEq, Prod.mk.injEq,
      Option.some.injEq] at h
    obtain ⟨_, h2, _⟩ := h
    subst h2
    exact ⟨_, rfl, rfl, by simp [configCodes]⟩
  | some buf =>
    rcases hyaml : w.yamlUnmarshal buf settings with ⟨_ | cfg, _ | text⟩
    · simp [loadConfig, hread, hyaml] at h
    · simp only [loadConfig, hread, hyaml, Outcome.returned.injEq, Prod.mk.injEq,
        Option.some.injEq] at h
      obtain ⟨_, h2, _⟩ := h
      subst h2
      exact ⟨_, rfl, rfl, by simp [configCodes]⟩
    · rw [loadConfig_parsed w filepath buf settings cfg hread hyaml] at h
      have hval : loadConfig.validate w cfg = (loaded, some err, log) :=
        Outcome.returned.inj h
      exact validate_error_codes w cfg err (by rw [hval])
    · simp only [loadConfig, hread, hyaml, Outcome.returned.injEq, Prod.mk.injEq,
        Option.some.injEq] at h
      obtain ⟨_, h2, _⟩ := h
      subst h2
      exact ⟨_, rfl, rfl, by simp [configCodes]⟩

theorem requestDevices_error_codes (w : World) (settings : yamlContent) (output out : Output)
    (err : GoError)
    (h : requestDevices w settings output = Outcome.returned (out, some err)) :
    ∃ e, err = GoError.expError e ∧ e.StatusCode = 500 ∧ e.Code ∈ fetchCodes := by
  unfold requestDevices at h
  revert h
  repeat' split
  all_goals
    intro h
    first
    | (cases h
       exact ⟨_, rfl, rfl, by simp [fetchCodes, ExpErrorNew]⟩)
    | cases h

theorem loadConfig_timeouts (w : World) (filepath : String)
    (settings loaded : yamlContent) (log : List LogLine)
    (h : loadConfig w filepath settings = Outcome.returned (loaded, none, log)) :
    (∃ t, loaded.CollectConfigs.TimeOut = some t) ∧
    (∃ t, loaded.AlertConfigs.TimeOut = some t) := by
  obtain ⟨buf, cfg, hread, hyaml, _⟩ := loadConfig_returned_nil w filepath settings loaded log h
  obtain ⟨_, _, ⟨t1, h1, _⟩, ⟨t2, h2, _⟩, _⟩ :=
    loadConfig_invariants w filepath buf settings cfg loaded log hread hyaml h
  exact ⟨⟨t1, h1⟩, ⟨t2, h2⟩⟩

theorem expError_response (e : ExpError) :
    GetStatusCode (GoError.expError e) = e.StatusCode ∧
    Body.h (ToJson (GoError.expError e)) = errorBody e.Code e.Message :=
  ⟨rfl, rfl⟩

theorem GetDevices_load_failure (w : World) (path method : String)
    (loaded : yamlContent) (err : GoError) (loadLog : List LogLine)
    (hload : loadConfig w yamlFilePath yamlContent.zero
      = Outcome.returned (loaded, some err, loadLog)) :
    ∃ h, GetDevices w path method = Outcome.returned h ∧
      h.status = GetStatusCode err ∧ h.body = Body.h (ToJson err) ∧ h.dispatches = [] := by
  simp only [GetDevices, hload]
  exact ⟨_, rfl, rfl, rfl, rfl⟩

theorem GetDevices_fetch_failure (w : World) (path method : String) (output : Output)
    (settings : yamlContent) (err : GoError) (loadLog : List LogLine)
    (hload : loadConfig w yamlFilePath yamlContent.zero
      = Outcome.returned (settings, none, loadLog))
    (hreq : requestDevices w settings Output.zero = Outcome.returned (output, some err)) :
    ∃ h, GetDevices w path method = Outcome.returned h ∧
      h.status = GetStatusCode err ∧ h.body = Body.h (ToJson err) ∧ h.dispatches = [] := by
  simp only [GetDevices, hload, hreq]
  exact ⟨_, rfl, rfl, rfl, rfl⟩

theorem GetDevices_fetch_success (w : World) (path method : String) (output : Output)
    (settings : yamlContent) (loadLog : List LogLine)
    (hload : loadConfig w yamlFilePath yamlContent.zero
      = Outcome.returned (settings, none, loadLog))
    (hreq : requestDevices w settings Output.zero = Outcome.returned (output, none)) :
    ∃ h, GetDevices w path method = Outcome.returned h ∧
      h.status = 200 ∧ ∃ items, h.body = Body.resources items := by
  simp only [GetDevices, hload, hreq]
  exact ⟨_, rfl, rfl, _, rfl⟩

/-- The handler answers whenever `loadConfig` returns: after a successful
load the timeout dereference of `requestDevices` cannot panic. -/
theorem GetDevices_returns (w : World) (path method : String)
    (r : yamlContent × Option GoError × List LogLine)
    (hload : loadConfig w yamlFilePath yamlContent.zero = Outcome.returned r) :
    ∃ h, GetDevices w path method = Outcome.returned h := by
  obtain ⟨loaded, err, loadLog⟩ := r
  cases err with
  | some err =>
    obtain ⟨h, hh, _⟩ := GetDevices_load_failure w path method loaded err loadLog hload
    exact ⟨h, hh⟩
  | none =>
    obtain ⟨⟨t, ht⟩, _⟩ :=
      loadConfig_timeouts w yamlFilePath yamlContent.zero loaded loadLog hload
    obtain ⟨⟨output, err⟩, hreq⟩ := requestDevices_returns w loaded Output.zero t ht
    cases err with
    | none =>
      obtain ⟨h, hh, _⟩ :=
        GetDevices_fetch_success w path method output loaded loadLog hload hreq
      exact ⟨h, hh⟩
    | some err =>
      obtain ⟨h, hh, _⟩ :=
        GetDevices_fetch_failure w path method output loaded err loadLog hload hreq
      exact ⟨h, hh⟩

theorem loadConfig_returns_or_null (w : World) (filepath : String) (settings : yamlContent) :
    (∃ r, loadConfig w filepath settings = Outcome.returned r) ∨
    (∃ buf, w.readFile filepath = some buf ∧
      w.yamlUnmarshal buf settings = (none, none)) := by
  cases hread : w.readFile filepath with
  | none =>
    left
    simp only [loadConfig, hread]
    exact ⟨_, rfl⟩
  | some buf =>
    rcases hyaml : w.yamlUnmarshal buf settings with ⟨_ | cfg, _ | text⟩
    · right
      exact ⟨buf, rfl, hyaml⟩
    · left
      simp only [loadConfig, hread, hyaml]
      exact ⟨_, rfl⟩
    · left
      exact ⟨_, loadConfig_parsed w filepath buf settings cfg hread hyaml⟩
    · left
      simp only [loadConfig, hread, hyaml]
      exact ⟨_, rfl⟩

/-- The handler panics exactly when `loadConfig` does, that is when the file
was read and `yaml.Unmarshal` returned no error but set the pointer to nil. -/
theorem GetDevices_panics_iff (w : World) (path method : String) :
    (∃ reason, GetDevices w path method = Outcome.panicked reason) ↔
      ∃ buf, w.readFile yamlFilePath = some buf ∧
        w.yamlUnmarshal buf yamlContent.zero = (none, none) := by
  constructor
  · rintro ⟨reason, hp⟩
    rcases loadConfig_returns_or_null w yamlFilePath yamlContent.zero with ⟨r, hload⟩ | hnull
    · obtain ⟨h, hh⟩ := GetDevices_returns w path method r hload
      rw [hh] at hp
      cases hp
    · exact hnull
  · rintro ⟨buf, hread, hyaml⟩
    exact ⟨nilDereference, by simp only [GetDevices, loadConfig, hread, hyaml]⟩

/-- On a YAML null document `loadConfig` panics at line 174, and so does the
handler: no error is returned and no response is written. -/
theorem loadConfig_null_document_panics :
    loadConfigError (loadConfig nullDocumentWorld yamlFilePath yamlContent.zero) = none ∧
    (GetDevices nullDocumentWorld "/cdim/api/v1/devices/sync" "POST").result?.map
      dispatchSummary = none := by
  decide

/-- C12: for every error returned by `loadConfig` or `requestDevices` inside
`GetDevices`, the handler answers with the error's status code and the body
`{code, message}` of the error (`GetStatusCode` and `ToJson` give back what
`ExpErrorNew` was given), returns no resource list and schedules no alert
dispatch; and after a `loadConfig` failure no GET is issued, the answer being
the same whatever the collector would have answered. -/
theorem GetDevices_failure_response (w : World) (path method : String) :
    (∀ statusCode code message,
      GetStatusCode (ExpErrorNew statusCode code message) = statusCode ∧
      ToJson (ExpErrorNew statusCode code message)
        = some [("code", Value.string code), ("message", Value.string message)]) ∧
    (∀ loaded err loadLog,
      loadConfig w yamlFilePath yamlContent.zero
        = Outcome.returned (loaded, some err, loadLog) →
      ∃ e h, err = GoError.expError e ∧
        GetDevices w path method = Outcome.returned h ∧
        h.status = e.StatusCode ∧ h.body = errorBody e.Code e.Message ∧
        h.dispatches = [] ∧ GetDevicesGets w = [] ∧
        (∀ get decode,
          GetDevices { w with httpGet := get, jsonUnmarshal := decode } path method
            = Outcome.returned h)) ∧
    (∀ settings loadLog output err,
      loadConfig w yamlFilePath yamlContent.zero
        = Outcome.returned (settings, none, loadLog) →
      requestDevices w settings Output.zero = Outcome.returned (output, some err) →
      ∃ e h, err = GoError.expError e ∧
        GetDevices w path method = Outcome.returned h ∧
        h.status = e.StatusCode ∧ h.body = errorBody e.Code e.Message ∧
        h.dispatches = []) := by
  refine ⟨fun _ _ _ => ⟨rfl, rfl⟩, ?_, ?_⟩
  · intro loaded err loadLog hload
    obtain ⟨e, he, _⟩ :=
      loadConfig_error_codes w yamlFilePath yamlContent.zero loaded err loadLog hload
    subst he
    obtain ⟨h, hh, h1, h2, h3⟩ := GetDevices_load_failure w path method _ _ _ hload
    refine ⟨e, h, rfl, hh, h1, h2, h3, ?_, ?_⟩
    · simp only [GetDevicesGets, hload]
    · intro get decode
      have hsame : loadConfig { w with httpGet := get, jsonUnmarshal := decode }
          yamlFilePath yamlContent.zero = loadConfig w yamlFilePath yamlContent.zero := rfl
      rw [← hh]
      simp only [GetDevices, hsame, hload]
  · intro settings loadLog output err hload hreq
    obtain ⟨e, he, _⟩ := requestDevices_error_codes w _ _ _ err hreq
    subst he
    obtain ⟨h, hh, h1, h2, h3⟩ :=
      GetDevices_fetch_failure w path method output _ _ _ hload hreq
    exact ⟨e, h, rfl, hh, h1, h2, h3⟩

/-- Witness of C12: a configuration without `collect_configs.target_url` makes
the handler answer 500 with code 0010, without dispatch and without any GET. -/
theorem GetDevices_failure_response_witness :
    ∃ h, GetDevices
        (stubWorld (sampleConfig "" sampleAlertUrl (some 30) (some 30))
          (GetResult.response 200 (some "body")) (Except.ok Output.zero)
          (PostResult.response 200))
        "/cdim/api/v1/devices/sync" "POST" = Outcome.returned h ∧
      h.status = 500 ∧
      h.body = errorBody "0010" "collect_configs/target_url setting is required." ∧
      h.dispatches = [] ∧
      GetDevicesGets
        (stubWorld (sampleConfig "" sampleAlertUrl (some 30) (some 30))
          (GetResult.response 200 (some "body")) (Except.ok Output.zero)
          (PostResult.response 200)) = [] := by
  obtain ⟨e, h, he, hh, h1, h2, h3, h4, _⟩ :=
    (GetDevices_failure_response
      (stubWorld (sampleConfig "" sampleAlertUrl (some 30) (some 30))
        (GetResult.response 200 (some "body")) (Except.ok Output.zero)
        (PostResult.response 200))
      "/cdim/api/v1/devices/sync" "POST").2.1
      (sampleConfig "" sampleAlertUrl (some 30) (some 30))
      (GoError.expError
        { StatusCode := 500, Code := "0010",
          Message := "collect_configs/target_url setting is required." })
      [] rfl
  cases he
  exact ⟨h, hh, h1, h2, h3, h4⟩

/-- C13: every error `loadConfig` returns is an `ExpError` with status 500 and
a code among 0001, 0002, 0010, 0011, 0012, 0013, 0014, and every error
`requestDevices` returns is an `ExpError` with status 500 and a code among
0006, 0007, 0008, 0009; for these errors `GetStatusCode` gives 500, not its
fallback 0, and `ToJson` gives the map `{code, message}`, not its nil
fallback; so whenever `loadConfig` or `requestDevices` returns an error inside
`GetDevices`, the handler answers with status 500 and the structured body
`{code, message}` carrying a documented code. -/
theorem pipeline_errors_documented (w : World) (path method : String) :
    (∀ filepath settings loaded err log,
      loadConfig w filepath settings = Outcome.returned (loaded, some err, log) →
      ∃ e, err = GoError.expError e ∧ e.StatusCode = 500 ∧ e.Code ∈ configCodes ∧
        GetStatusCode err = 500 ∧ GetStatusCode err ≠ 0 ∧
        ToJson err = some [("code", Value.string e.Code), ("message", Value.string e.Message)]
        ∧ ToJson err ≠ none) ∧
    (∀ settings output out err,
      requestDevices w settings output = Outcome.returned (out, some err) →
      ∃ e, err = GoError.expError e ∧ e.StatusCode = 500 ∧ e.Code ∈ fetchCodes ∧
        GetStatusCode err = 500 ∧ GetStatusCode err ≠ 0 ∧
        ToJson err = some [("code", Value.string e.Code), ("message", Value.string e.Message)]
        ∧ ToJson err ≠ none) ∧
    (∀ loaded err loadLog,
      loadConfig w yamlFilePath yamlContent.zero
        = Outcome.returned (loaded, some err, loadLog) →
      ∃ e h, err = GoError.expError e ∧
        GetDevices w path method = Outcome.returned h ∧
        h.status = 500 ∧ h.body = errorBody e.Code e.Message ∧ e.Code ∈ configCodes) ∧
    (∀ settings loadLog output err,
      loadConfig w yamlFilePath yamlContent.zero
        = Outcome.returned (settings, none, loadLog) →
      requestDevices w settings Output.zero = Outcome.returned (output, some err) →
      ∃ e h, err = GoError.expError e ∧
        GetDevices w path method = Outcome.returned h ∧
        h.status = 500 ∧ h.body = errorBody e.Code e.Message ∧ e.Code ∈ fetchCodes) := by
  refine ⟨?_, ?_, ?_, ?_⟩
  · intro filepath settings loaded err log h
    obtain ⟨e, he, hs, hc⟩ := loadConfig_error_codes w filepath settings loaded err log h
    subst he
    refine ⟨e, rfl, hs, hc, hs, ?_, rfl, by simp [ToJson]⟩
    show e.StatusCode ≠ 0
    rw [hs]
    decide
  · intro settings output out err h
    obtain ⟨e, he, hs, hc⟩ := requestDevices_error_codes w settings output out err h
    subst he
    refine ⟨e, rfl, hs, hc, hs, ?_, rfl, by simp [ToJson]⟩
    show e.StatusCode ≠ 0
    rw [hs]
    decide
  · intro loaded err loadLog hload
    obtain ⟨e, he, hs, hc⟩ :=
      loadConfig_error_codes w yamlFilePath yamlContent.zero loaded err loadLog hload
    subst he
    obtain ⟨h, hh, h1, h2, _⟩ := GetDevices_load_failure w path method _ _ _ hload
    exact ⟨e, h, rfl, hh, h1.trans hs, h2, hc⟩
  · intro settings loadLog output err hload hreq
    obtain ⟨e, he, hs, hc⟩ := requestDevices_error_codes w _ _ _ err hreq
    subst he
    obtain ⟨h, hh, h1, h2, _⟩ :=
      GetDevices_fetch_failure w path method output _ _ _ hload hreq
    exact ⟨e, h, rfl, hh, h1.trans hs, h2, hc⟩

/-- Witness of C13: with the alert timeout 0 the handler answers 500 with the
body of code 0012; with a valid configuration and the collector answering 503
it answers 500 with the body of code 0007. -/
theorem pipeline_errors_documented_witness :
    (∃ h, GetDevices
        (stubWorld (sampleConfig sampleCollectUrl sampleAlertUrl (some 30) (some 0))
          (GetResult.response 503 none) (Except.ok Output.zero) (PostResult.response 200))
        "/cdim/api/v1/devices/sync" "POST" = Outcome.returned h ∧
      h.status = 500 ∧
      h.body = errorBody "0012" "alert_config/timeout value is out of range.") ∧
    (∃ h, GetDevices
        (stubWorld (sampleConfig sampleCollectUrl sampleAlertUrl (some 30) (some 30))
          (GetResult.response 503 none) (Except.ok Output.zero) (PostResult.response 200))
        "/cdim/api/v1/devices/sync" "POST" = Outcome.returned h ∧
      h.status = 500 ∧ h.body = errorBody "0007" "Collect target failure.") := by
  obtain ⟨e1, h1, he1, hh1, hs1, hb1, _⟩ :=
    (pipeline_errors_documented
      (stubWorld (sampleConfig sampleCollectUrl sampleAlertUrl (some 30) (some 0))
        (GetResult.response 503 none) (Except.ok Output.zero) (PostResult.response 200))
      "/cdim/api/v1/devices/sync" "POST").2.2.1
      { CollectConfigs := { TargetUrl := sampleCollectUrl, TimeOut := some 30 },
        AlertConfigs :=
          { TargetUrl := sampleAlertUrl, TimeOut := none,
            StateSettings :=
              { NormalState := some ["Enabled", "Qualified"],
                NormalHealth := some ["OK", "Warning"] } } }
      (GoError.expError
        { StatusCode := 500, Code := "0012",
          Message := "alert_config/timeout value is out of range." })
      [] rfl
  obtain ⟨e2, h2, he2, hh2, hs2, hb2, _⟩ :=
    (pipeline_errors_documented
      (stubWorld (sampleConfig sampleCollectUrl sampleAlertUrl (some 30) (some 30))
        (GetResult.response 503 none) (Except.ok Output.zero) (PostResult.response 200))
      "/cdim/api/v1/devices/sync" "POST").2.2.2
      (sampleConfig sampleCollectUrl sampleAlertUrl (some 30) (some 30)) [] Output.zero
      (GoError.expError
        { StatusCode := 500, Code := "0007", Message := "Collect target failure." })
      rfl rfl
  cases he1
  cases he2
  exact ⟨⟨h1, hh1, hs1, hb1⟩, ⟨h2, hh2, hs2, hb2⟩⟩

/-! ## Failures of the alert dispatch -/

/-- The two failures that `postAlert` does log: when the items cannot be
serialized it returns without issuing a POST, having logged error lines and
not the line "post has been completed."; and when the alert timeout is set it
always returns, and if the POST fails at the network level it has logged the
error line "post has failed." and not the line "post has been completed.". -/
theorem postAlert_failures_logged (w : World) (alertName : String)
    (alerts : Option (List Value)) (settings : yamlContent) :
    (∀ err, w.jsonMarshalAlerts alerts = Except.error err →
      ∃ run, postAlert w alertName alerts settings = Outcome.returned run ∧
        run.posted = none ∧
        { level := Level.error, message := "Failed to marshal for 'annotations'." }
          ∈ run.log ∧
        { level := Level.error, message := err } ∈ run.log ∧
        { level := Level.info, message := "post has been completed." } ∉ run.log) ∧
    (∀ t, settings.AlertConfigs.TimeOut = some t →
      (∃ run, postAlert w alertName alerts settings = Outcome.returned run) ∧
      (∀ d body err, w.jsonMarshalAlerts alerts = Except.ok d →
        w.jsonMarshalBody (NewAlertContentList alertName "critical" d) = Except.ok body →
        w.httpPost settings.AlertConfigs.TargetUrl t "application/json" body
          = PostResult.failed err →
        ∃ run, postAlert w alertName alerts settings = Outcome.returned run ∧
          run.posted = some
            { url := settings.AlertConfigs.TargetUrl, timeout := t,
              contentType := "application/json", body := body } ∧
          { level := Level.error, message := "post has failed." } ∈ run.log ∧
          { level := Level.error, message := err } ∈ run.log ∧
          { level := Level.info, message := "post has been completed." } ∉ run.log)) := by
  have hstart : ("Starting the post." : String) ≠ "post has been completed." := by decide
  refine ⟨?_, ?_⟩
  · intro err herr
    simp only [postAlert, herr]
    refine ⟨_, rfl, rfl, ?_, ?_, ?_⟩
    · simp
    · simp
    · simp [hstart]
  · intro t ht
    refine ⟨postAlert_returns w alertName alerts settings t ht, ?_⟩
    intro d body err hd hb hp
    simp only [postAlert, hd, hb, ht, hp]
    refine ⟨_, rfl, rfl, ?_, ?_, ?_⟩
    · simp
    · simp
    · simp [hstart]

/-- With the alert timeout 30 and a refused connection, `postAlert` returns
with the error line "post has failed.". -/
theorem postAlert_network_failure_logged :
    ∃ run, postAlert
        (stubWorld (sampleConfig sampleCollectUrl sampleAlertUrl (some 30) (some 30))
          (GetResult.failed "") (Except.error "") (PostResult.failed "connection refused"))
        "abnormalStatusDeviceList" (some [])
        (sampleConfig sampleCollectUrl sampleAlertUrl (some 30) (some 30))
        = Outcome.returned run ∧
      { level := Level.error, message := "post has failed." } ∈ run.log := by
  obtain ⟨run, h1, _, h3, _⟩ :=
    ((postAlert_failures_logged
      (stubWorld (sampleConfig sampleCollectUrl sampleAlertUrl (some 30) (some 30))
        (GetResult.failed "") (Except.error "") (PostResult.failed "connection refused"))
      "abnormalStatusDeviceList" (some [])
      (sampleConfig sampleCollectUrl sampleAlertUrl (some 30) (some 30))).2 30 rfl).2
      "[]" "[]" "connection refused" rfl rfl rfl
  exact ⟨run, h1, h3⟩

/-- C14 (evaluation at the failing input): on the third case of
`Test_postAlert` (two items, the alert timeout `new(int)`, the alert endpoint
answering 500) `postAlert` issues the POST and returns having logged "post has
been completed." and no error line: the non-success status is not recorded as
a failure. -/
theorem postAlert_completed_on_500 :
    postAlertLog
        (postAlert
          (stubWorld (sampleConfig sampleCollectUrl sampleAlertUrl (some 30) (some 0))
            (GetResult.failed "") (Except.error "") (PostResult.response 500))
          "testAlert" (some [Value.string "alert1", Value.string "alert2"])
          (sampleConfig sampleCollectUrl sampleAlertUrl (some 30) (some 0)))
      = some
        [{ level := Level.info, message := "Starting the post." },
         { level := Level.info, message := "post has been completed." },
         { level := Level.info, message := "[]" }] ∧
    (postAlert
        (stubWorld (sampleConfig sampleCollectUrl sampleAlertUrl (some 30) (some 0))
          (GetResult.failed "") (Except.error "") (PostResult.response 500))
        "testAlert" (some [Value.string "alert1", Value.string "alert2"])
        (sampleConfig sampleCollectUrl sampleAlertUrl (some 30) (some 0))).result?.map
        (fun run => run.posted)
      = some (some
        { url := sampleAlertUrl, timeout := 0, contentType := "application/json",
          body := "[]" }) := by
  decide

end controller
